import Mathlib

/-!
Verification of the Elfrid backend (src/backend/db.py, src/backend/app.py,
src/backend/agents/get_time.py) against its natural-language specification.

Shallow embedding conventions:
- Python strings are Lean `String`s; the Python string methods used by the
  source (strip, lower, startswith, endswith, split, the `in` substring test,
  isalnum) are re-implemented below over `String.data` so that all
  definitions reduce in the kernel.  Python `str.isalnum` is Unicode-aware;
  the model (`pyIsAlnum`) is exact for every code point below U+0100 and
  maps higher code points to false (no theorem quantifies over names
  containing them); `strip`/`lower`/`startswith` are modeled on ASCII,
  where they agree with Python on every string the theorems touch.
  Python `str.strip` also removes `\x0b`/`\x0c`; the model includes them.
- JSON values that flow out of `json.loads` are modeled by the inductive
  `Json`.  The parser `json.loads` itself is Python standard library, not
  repository code, so it is passed to the model as an abstract parameter
  `parse : String -> Option Json` (validation succeeds iff `parse` returns
  `some`); no theorem depends on the internals of the parser.
- The SQLite engine behind dynamically built SQL (``cursor.execute`` on
  text assembled from identifiers) is external to the repository; it is
  modeled as an oracle `Engine : SqlCall -> EngineResult`, and each storage
  operation additionally returns the list of `SqlCall`s it handed to the
  engine, so "no SQL was executed" is the statement "the emitted call list
  is empty".  The fixed-schema statements of db.py (users/memory/modes/
  sessions/logs tables) are instead given direct semantics over the `DB`
  record further below.
- Python exceptions become the inductive `PyErr`; `PyErr.isValueError`
  records which of them the `except ValueError` handlers of app.py catch.
-/

/-- JSON values as produced by `json.loads`.  Numbers are modeled as `Int`;
no claim exercises fractional numbers. -/
inductive Json where
  | null : Json
  | bool (b : Bool) : Json
  | num (n : Int) : Json
  | str (s : String) : Json
  | arr (elems : List Json) : Json
  | obj (fields : List (String × Json)) : Json

/-- Python `x == "lit"` where `x` came from parsed JSON: true only when `x`
is the string `lit`.  Every comparison in the dispatcher is of this form. -/
def Json.eqStr : Json → String → Bool
  | .str s, t => s == t
  | _, _ => false

/-- Is this JSON value a string? -/
def Json.isStr : Json → Bool
  | .str _ => true
  | _ => false

/-- Python dict `.get(key, default)` over the field list of a JSON object:
the first binding of `key`, or `default` when the key is absent. -/
def Json.getD (fields : List (String × Json)) (key : String) (dflt : Json) : Json :=
  match fields.find? (fun p => p.1 == key) with
  | some p => p.2
  | none => dflt

/-- Python truthiness of a value that came from parsed JSON. -/
def pyTruthy : Json → Bool
  | .null => false
  | .bool b => b
  | .num n => n != 0
  | .str s => s != ""
  | .arr l => !l.isEmpty
  | .obj l => !l.isEmpty

/-- Python `str(x)` for values spliced into f-string context keys.  Scalars
are rendered exactly; the container renderings are placeholders (no theorem
inspects a context key built from a container-valued field). -/
def pyStr : Json → String
  | .null => "None"
  | .bool true => "True"
  | .bool false => "False"
  | .num n => toString n
  | .str s => s
  | .arr _ => "[...]"
  | .obj _ => "\x7b...\x7d"

/-- The whitespace set of Python `str.strip()` (ASCII part). -/
def isPySpace (c : Char) : Bool :=
  c == ' ' || c == '\t' || c == '\n' || c == '\r' || c == '\x0b' || c == '\x0c'

/-- Python `s.strip()`. -/
def pyStrip (s : String) : String :=
  String.mk (((s.data.dropWhile isPySpace).reverse.dropWhile isPySpace).reverse)

/-- Python `s.lower()` (ASCII). -/
def pyLower (s : String) : String :=
  String.mk (s.data.map Char.toLower)

/-- Python `s.startswith(pre)`. -/
def pyStartsWith (pre s : String) : Bool :=
  pre.data.isPrefixOf s.data

/-- Python `s.endswith(suf)`. -/
def pyEndsWith (suf s : String) : Bool :=
  suf.data.reverse.isPrefixOf s.data.reverse

/-- Python `c in s` for a one-character needle. -/
def pyHasChar (c : Char) (s : String) : Bool :=
  s.data.contains c

/-- Auxiliary for `pySplitOn`: split `s` at every occurrence of `sep`,
with explicit fuel for structural recursion (fuel is the length of `s`,
and each step consumes at least one character since `sep` is nonempty). -/
def pySplitAux (sep : List Char) : Nat → List Char → List Char → List (List Char)
  | 0, acc, rest => [acc.reverse ++ rest]
  | Nat.succ fuel, acc, rest =>
    match rest with
    | [] => [acc.reverse]
    | c :: cs =>
      if sep.isPrefixOf (c :: cs) then
        acc.reverse :: pySplitAux sep fuel [] (List.drop sep.length (c :: cs))
      else
        pySplitAux sep fuel (c :: acc) cs

/-- Python `s.split(sep)` for a nonempty separator. -/
def pySplitOn (sep s : String) : List String :=
  (pySplitAux sep.data s.data.length [] s.data).map String.mk

/-- Python `needle in s` (substring test), via split: the substring occurs
iff the split produced at least two pieces. -/
def pyHasSub (needle s : String) : Bool :=
  (pySplitOn needle s).length ≥ 2

/-- Join a list of strings with a separator (Python `sep.join(l)`). -/
def joinSep (sep : String) : List String → String
  | [] => ""
  | [x] => x
  | x :: y :: xs => x ++ sep ++ joinSep sep (y :: xs)

/-- Python `str.isalnum` on one character.  Python's predicate is
Unicode-aware (true for the letter and number categories).  The model is
exact for every code point below U+0100: the ASCII alphanumerics; in the
Latin-1 supplement the ordinal indicators, superscripts, micro sign and
vulgar fractions (U+00AA, U+00B2, U+00B3, U+00B5, U+00B9, U+00BA, U+00BC,
U+00BD, U+00BE); and the Latin-1 letters U+00C0..U+00FF minus the
multiplication and division signs (U+00D7, U+00F7).  Code points at or
above U+0100 are outside the modeled domain and mapped to false — Python
accepts many of those as well, so no theorem below quantifies over names
containing them. -/
def pyIsAlnum (c : Char) : Bool :=
  if c.toNat < 128 then c.isAlphanum
  else if c.toNat < 0xA0 then false
  else if c.toNat < 0xC0 then
    c.toNat == 0xAA || c.toNat == 0xB2 || c.toNat == 0xB3 || c.toNat == 0xB5 ||
    c.toNat == 0xB9 || c.toNat == 0xBA || c.toNat == 0xBC || c.toNat == 0xBD ||
    c.toNat == 0xBE
  else if c.toNat < 0x100 then c.toNat != 0xD7 && c.toNat != 0xF7
  else false

/-- The identifier gate of db.py:
`all(c.isalnum() or c == '_' for c in table_name)`.
It is vacuously true on the empty string, and — because `isalnum` is
Unicode-aware — it is wider than `^[A-Za-z0-9_]+$`: a name such as "café"
passes it. -/
def validIdent (s : String) : Bool :=
  s.data.all (fun c => pyIsAlnum c || c == '_')

/-- Python exceptions raised by the modeled code.  Each constructor carries
enough to rebuild the message text of the source (`PyErr.msg`). -/
inductive PyErr where
  /-- ValueError from `validate_user`: "User ID ... not found". -/
  | notFound (userId : Int) : PyErr
  /-- ValueError "Invalid table name: ..." (the identifier gate). -/
  | invalidIdentifier (name : String) : PyErr
  /-- ValueError "Invalid schema: multiple SQL statements not allowed". -/
  | unsafeStatement : PyErr
  /-- ValueError "Only SELECT queries are allowed through this method". -/
  | rejectedQuery : PyErr
  /-- ValueError for malformed or missing data (message as in the source). -/
  | invalidData (m : String) : PyErr
  /-- ValueError "Invalid action: must be read or update". -/
  | invalidAction : PyErr
  /-- ValueError re-raised by db.py around an engine failure
  ("Failed to create table: ...", "Query execution failed: ...", ...). -/
  | storeError (m : String) : PyErr
  /-- ValueError of app.py when the plan response is not a JSON array. -/
  | malformedPlan : PyErr
  /-- A raw sqlite3.Error escaping a db.py function that does not wrap it
  (list_tables, get_schema); not a ValueError. -/
  | sqliteError (m : String) : PyErr
  /-- AttributeError (e.g. `.get` on a non-dict plan item, `.strip()` on a
  non-string query); not a ValueError. -/
  | attributeError (m : String) : PyErr
  /-- TypeError (e.g. `json.loads` applied to a non-string); not a
  ValueError. -/
  | typeError (m : String) : PyErr
  /-- Marker for behavior outside this model (binding a non-string value as
  a key of the fixed tables); no theorem domain reaches it. -/
  | unmodeled (m : String) : PyErr

/-- Which exceptions the `except ValueError` handlers of app.py catch:
every error db.py raises is a ValueError (JSONDecodeError included);
raw sqlite3 errors, AttributeError and TypeError are not. -/
def PyErr.isValueError : PyErr → Bool
  | .notFound _ => true
  | .invalidIdentifier _ => true
  | .unsafeStatement => true
  | .rejectedQuery => true
  | .invalidData _ => true
  | .invalidAction => true
  | .storeError _ => true
  | .malformedPlan => true
  | .sqliteError _ => false
  | .attributeError _ => false
  | .typeError _ => false
  | .unmodeled _ => false

/-- Python `str(e)` of the modeled exception, as stored into the context map. -/
def PyErr.msg : PyErr → String
  | .notFound uid => "User ID " ++ toString uid ++ " not found"
  | .invalidIdentifier name => "Invalid table name: " ++ name
  | .unsafeStatement => "Invalid schema: multiple SQL statements not allowed"
  | .rejectedQuery => "Only SELECT queries are allowed through this method"
  | .invalidData m => m
  | .invalidAction => "Invalid action: must be \x27read\x27 or \x27update\x27"
  | .storeError m => m
  | .malformedPlan => "LLM actions response must be valid JSON array"
  | .sqliteError m => m
  | .attributeError m => m
  | .typeError m => m
  | .unmodeled m => m

/-- One `cursor.execute` reaching the SQLite engine with dynamically built
SQL text and its bound parameters. -/
structure SqlCall where
  sql : String
  params : List Json

/-- Engine outcome of one dynamically built statement: success (with the
cursor attributes the source reads) or a sqlite3.Error message. -/
inductive EngineResult where
  | ok (lastrowid : Nat) (rowcount : Nat) (rows : List (List (String × Json))) : EngineResult
  | err (m : String) : EngineResult

/-- The SQLite engine as an oracle over dynamically built statements. -/
def Engine : Type := SqlCall → EngineResult

def EngineResult.isOk : EngineResult → Bool
  | .ok _ _ _ => true
  | .err _ => false

/-- Python `row[col]` on a sqlite3.Row: the value of the named column.  Missing
columns would raise IndexError in Python; the oracles used in theorems
always supply the requested columns, so the model defaults to `Json.null`. -/
def rowGet (row : List (String × Json)) (col : String) : Json :=
  match row.find? (fun p => p.1 == col) with
  | some p => p.2
  | none => Json.null

/-- db.py line 123 / 166 / 192 / 239 message. -/
def invalidTableMsg (t : String) : String := "Invalid table name: " ++ t

def dataDictMsg : String := "Data must be a non-empty dictionary"

def condDictMsg : String := "Condition must be a non-empty dictionary"

def dataRequiredMsg : String := "Data required for update action"

def invalidJsonUpdateMsg : String := "Invalid JSON data for update"

/-- db.py `create_table(table_name, schema)`: identifier gate on the table
name, then the statement-stacking heuristic
(`";" in schema and not schema.strip().endswith(";")`), then the schema
text is handed to the engine verbatim.  Returns the outcome together with
the list of statements that reached the engine. -/
def create_table (engine : Engine) (table_name schema : String) :
    Except PyErr String × List SqlCall :=
  if !(validIdent table_name) then
    (.error (.invalidIdentifier table_name), [])
  else if pyHasChar ';' schema && !(pyEndsWith ";" (pyStrip schema)) then
    (.error .unsafeStatement, [])
  else
    match engine ⟨schema, []⟩ with
    | .ok _ _ _ =>
      (.ok ("Table \x27" ++ table_name ++ "\x27 created successfully"), [⟨schema, []⟩])
    | .err m =>
      (.error (.storeError ("Failed to create table: " ++ m)), [⟨schema, []⟩])

/-- db.py `execute_custom_query(query, params=None)`: the read-only gate is
a prefix test on the trimmed, lowercased text; an accepted query is handed
to the engine and its rows are returned as dicts. -/
def execute_custom_query (engine : Engine) (query : String) (params : List Json) :
    Except PyErr (List (List (String × Json))) × List SqlCall :=
  if !(pyStartsWith "select" (pyLower (pyStrip query))) then
    (.error .rejectedQuery, [])
  else
    match engine ⟨query, params⟩ with
    | .ok _ _ rows => (.ok rows, [⟨query, params⟩])
    | .err m => (.error (.storeError ("Query execution failed: " ++ m)), [⟨query, params⟩])

/-- db.py `insert_data(table_name, data_dict)`: identifier gate on the
table name only; the column names are taken from the dict keys and spliced
into the SQL text unvalidated, the values are bound as parameters. -/
def insert_data (engine : Engine) (table_name : String) (data_dict : Json) :
    Except PyErr String × List SqlCall :=
  if !(validIdent table_name) then
    (.error (.invalidIdentifier table_name), [])
  else
    match data_dict with
    | .obj fields =>
      if fields.isEmpty then
        (.error (.invalidData dataDictMsg), [])
      else
        let columns := fields.map (fun p => p.1)
        let values := fields.map (fun p => p.2)
        let sql := "INSERT INTO " ++ table_name ++ " (" ++ joinSep ", " columns ++
          ") VALUES (" ++ joinSep ", " (values.map (fun _ => "?")) ++ ")"
        match engine ⟨sql, values⟩ with
        | .ok rid _ _ =>
          (.ok ("Data inserted into \x27" ++ table_name ++ "\x27 with ID " ++ toString rid),
            [⟨sql, values⟩])
        | .err m =>
          (.error (.storeError ("Failed to insert data: " ++ m)), [⟨sql, values⟩])
    | _ => (.error (.invalidData dataDictMsg), [])

/-- db.py `update_data(table_name, condition_dict, data_dict)`: identifier
gate on the table name only; SET and WHERE column names are spliced into
the SQL text unvalidated, all values bound as parameters. -/
def update_data (engine : Engine) (table_name : String)
    (condition_dict data_dict : Json) :
    Except PyErr String × List SqlCall :=
  if !(validIdent table_name) then
    (.error (.invalidIdentifier table_name), [])
  else
    match data_dict with
    | .obj dFields =>
      if dFields.isEmpty then
        (.error (.invalidData dataDictMsg), [])
      else
        match condition_dict with
        | .obj cFields =>
          if cFields.isEmpty then
            (.error (.invalidData condDictMsg), [])
          else
            let setClause := joinSep ", " (dFields.map (fun p => p.1 ++ " = ?"))
            let whereClause := joinSep " AND " (cFields.map (fun p => p.1 ++ " = ?"))
            let params := dFields.map (fun p => p.2) ++ cFields.map (fun p => p.2)
            let sql := "UPDATE " ++ table_name ++ " SET " ++ setClause ++
              " WHERE " ++ whereClause
            match engine ⟨sql, params⟩ with
            | .ok _ rc _ =>
              (.ok ("Updated " ++ toString rc ++ " rows in \x27" ++ table_name ++ "\x27"),
                [⟨sql, params⟩])
            | .err m =>
              (.error (.storeError ("Failed to update data: " ++ m)), [⟨sql, params⟩])
        | _ => (.error (.invalidData condDictMsg), [])
    | _ => (.error (.invalidData dataDictMsg), [])

/-- The catalog query of db.py `list_tables`. -/
def catalogNamesSql : String :=
  "SELECT name FROM sqlite_master WHERE type=\x27table\x27"

/-- The catalog query of db.py `get_schema` with no table name. -/
def catalogAllSql : String :=
  "SELECT name, sql FROM sqlite_master WHERE type=\x27table\x27"

/-- The catalog query of db.py `get_schema` for one table name. -/
def catalogOneSql : String :=
  "SELECT sql FROM sqlite_master WHERE type=\x27table\x27 AND name=?"

/-- db.py `list_tables()`: reads the catalog; an engine failure escapes as
a raw sqlite3.Error (this function does not wrap it). -/
def list_tables (engine : Engine) :
    Except PyErr (List Json) × List SqlCall :=
  match engine ⟨catalogNamesSql, []⟩ with
  | .ok _ _ rows => (.ok (rows.map (fun r => rowGet r "name")), [⟨catalogNamesSql, []⟩])
  | .err m => (.error (.sqliteError m), [⟨catalogNamesSql, []⟩])

/-- db.py `get_schema(table_name=None)`: Python `if table_name:` is a
truthiness test, so the empty string takes the same all-tables branch as
the `None` default (the model passes the empty string for `None`); only a
truthy name reaches the identifier gate, and the name is then bound as a
parameter, never spliced.  Engine failures escape unwrapped. -/
def get_schema (engine : Engine) (table_name : String) :
    Except PyErr (List (String × Json)) × List SqlCall :=
  if table_name != "" then
    if !(validIdent table_name) then
      (.error (.invalidIdentifier table_name), [])
    else
      match engine ⟨catalogOneSql, [.str table_name]⟩ with
      | .ok _ _ rows =>
        (.ok (match rows.head? with
          | some row => [(table_name, rowGet row "sql")]
          | none => []), [⟨catalogOneSql, [.str table_name]⟩])
      | .err m => (.error (.sqliteError m), [⟨catalogOneSql, [.str table_name]⟩])
  else
    match engine ⟨catalogAllSql, []⟩ with
    | .ok _ _ rows =>
      (.ok (rows.map (fun r => (pyStr (rowGet r "name"), rowGet r "sql"))),
        [⟨catalogAllSql, []⟩])
    | .err m => (.error (.sqliteError m), [⟨catalogAllSql, []⟩])

/-! ## The fixed relational schema (db.py init_db) and its operations

The five fixed tables are modeled directly.  `INTEGER PRIMARY KEY` row ids
are allocated as SQLite does for a table that never sees deletions:
max existing id + 1 (1 on an empty table).  `datetime.now()` is modeled by
the strictly increasing counter `DB.now`, bumped at each write that
timestamps a row. -/

structure MemRow where
  memory_id : Nat
  user_id : Int
  table_name : String
  data : String
  last_updated : Nat
deriving DecidableEq, Repr

structure ModeRow where
  mode_id : Nat
  user_id : Int
  mode_name : String
  mode_data : String
  last_updated : Nat
deriving DecidableEq, Repr

structure SessionRow where
  session_id : Nat
  user_id : Int
  chat_state : String
  timestamp : Nat
deriving DecidableEq, Repr

structure LogRow where
  log_id : Nat
  user_id : Int
  session_id : Nat
  request : String
  response : String
  timestamp : Nat
deriving DecidableEq, Repr

/-- The relational store.  `elfrid_prompt` is the config singleton (exactly
one config row after `init_db`, by the spec invariant); `users` maps
`user_id` to `world_model`. -/
structure DB where
  elfrid_prompt : String
  users : List (Int × String)
  modes : List ModeRow
  memory : List MemRow
  sessions : List SessionRow
  logs : List LogRow
  now : Nat
deriving Repr

/-- The string `"{}"` (empty JSON object) used for fresh chat state. -/
def emptyJsonObj : String := "\x7b\x7d"

/-- Row id allocation: max existing id + 1. -/
def nextIdOf (ids : List Nat) : Nat :=
  ids.foldr max 0 + 1

/-- Whether `SELECT COUNT(*) FROM users WHERE user_id = ?` is nonzero. -/
def userExists (st : DB) (uid : Int) : Bool :=
  st.users.any (fun p => p.1 == uid)

/-- db.py `validate_user(user_id)`: ValueError "User ID ... not found"
when no users row matches; read-only. -/
def validate_user (st : DB) (uid : Int) : Except PyErr Unit :=
  if userExists st uid then .ok () else .error (.notFound uid)

/-- The memory-row key test of db.py `execute_query`
(`WHERE user_id = ? AND table_name = ?`). -/
def memKey (uid : Int) (t : String) (r : MemRow) : Bool :=
  r.user_id == uid && r.table_name == t

/-- The modes-row key test of db.py `update_mode`
(`WHERE user_id = ? AND mode_name = ?`). -/
def modeKey (uid : Int) (t : String) (r : ModeRow) : Bool :=
  r.user_id == uid && r.mode_name == t

/-- The write half of the update branch of db.py `execute_query`: fetch the
first matching `memory_id`; if present, UPDATE that row by id, else INSERT
a fresh row.  Commits exactly one statement. -/
def upsertMem (st : DB) (uid : Int) (t : String) (s : String) : DB :=
  match st.memory.find? (memKey uid t) with
  | some r =>
    { st with
      memory := st.memory.map (fun r2 =>
        if r2.memory_id == r.memory_id then
          { r2 with data := s, last_updated := st.now }
        else r2),
      now := st.now + 1 }
  | none =>
    { st with
      memory := st.memory ++
        [{ memory_id := nextIdOf (st.memory.map (fun r => r.memory_id)),
           user_id := uid, table_name := t, data := s, last_updated := st.now }],
      now := st.now + 1 }

/-- db.py `execute_query(user_id, action, table_name, data=None)` over the
memory table.  `read` returns the `data` of the first matching row or
`none`; `update` requires truthy data, validates it with `json.loads`
(the abstract `parse`), then upserts.  All error paths precede any write,
so the returned state equals the input state on error. -/
def execute_query (parse : String → Option Json) (st : DB) (uid : Int)
    (action : String) (table_name : String) (data : Json) :
    Except PyErr (Option String) × DB :=
  if !(userExists st uid) then (.error (.notFound uid), st)
  else if action == "read" then
    (.ok ((st.memory.find? (memKey uid table_name)).map (fun r => r.data)), st)
  else if action == "update" then
    if !(pyTruthy data) then (.error (.invalidData dataRequiredMsg), st)
    else
      match data with
      | .str s =>
        match parse s with
        | some _ => (.ok none, upsertMem st uid table_name s)
        | none => (.error (.invalidData invalidJsonUpdateMsg), st)
      | _ => (.error (.typeError "json.loads expects a string"), st)
  else (.error .invalidAction, st)

/-- The write half of db.py `update_mode`: fetch the first matching
`mode_id`; UPDATE that row by id, else INSERT.  No JSON validation. -/
def upsertMode (st : DB) (uid : Int) (name : String) (s : String) : DB :=
  match st.modes.find? (modeKey uid name) with
  | some r =>
    { st with
      modes := st.modes.map (fun r2 =>
        if r2.mode_id == r.mode_id then
          { r2 with mode_data := s, last_updated := st.now }
        else r2),
      now := st.now + 1 }
  | none =>
    { st with
      modes := st.modes ++
        [{ mode_id := nextIdOf (st.modes.map (fun r => r.mode_id)),
           user_id := uid, mode_name := name, mode_data := s, last_updated := st.now }],
      now := st.now + 1 }

/-- db.py `update_mode(user_id, mode_name, new_data)`: validates the user,
then unconditionally upserts `new_data` (there is no `json.loads` in this
function; mode-update JSON validation happens only in the dispatcher of app.py). -/
def update_mode (st : DB) (uid : Int) (mode_name : String) (new_data : String) :
    Except PyErr Unit × DB :=
  if !(userExists st uid) then (.error (.notFound uid), st)
  else (.ok (), upsertMode st uid mode_name new_data)

/-- db.py `new_session(user_id)`: validates the user, then inserts a
session row with `chat_state = "{}"` and the current timestamp, returning
the fresh `session_id` (`cursor.lastrowid`). -/
def new_session (st : DB) (uid : Int) : Except PyErr (Nat × DB) :=
  if !(userExists st uid) then .error (.notFound uid)
  else
    let sid := nextIdOf (st.sessions.map (fun r => r.session_id))
    .ok (sid,
      { st with
        sessions := st.sessions ++
          [{ session_id := sid, user_id := uid, chat_state := emptyJsonObj,
             timestamp := st.now }],
        now := st.now + 1 })

/-- Semantics of `ORDER BY timestamp DESC LIMIT 1`: the row with the greatest timestamp.
SQLite leaves the order of equal timestamps unspecified; the model keeps
the earliest-inserted row among ties (the theorems below only reach states
with distinct timestamps). -/
def mostRecent : List SessionRow → Option SessionRow
  | [] => none
  | r :: rs =>
    match mostRecent rs with
    | none => some r
    | some m => if m.timestamp > r.timestamp then some m else some r

/-- Semantics of `SELECT DISTINCT ...`: first occurrences, in scan order. -/
def dedupFirst (l : List String) : List String :=
  l.foldl (fun acc x => if acc.contains x then acc else acc ++ [x]) []

/-- The context bundle of db.py `get_context` (its 7-tuple result). -/
structure ContextBundle where
  elfrid_prompt : String
  world_model : String
  modes_array : List (String × String)
  memory_tables : List String
  db_tables : List Json
  session_id : Nat
  chat_state : String

/-- db.py `get_context(user_id)`: reads the config prompt, the world
model, the modes of the user and distinct memory table names, the full catalog
(`list_tables()`, whose raw sqlite3.Error propagates), then resolves the
current session as the most recently created one, creating a fresh session
as a side effect when none exists.  It performs no user validation itself
(its callers validate first; for an absent user the model reads an empty
world model where Python would raise on a missing row). -/
def get_context (engine : Engine) (st : DB) (uid : Int) :
    Except PyErr (ContextBundle × DB) :=
  let world := ((st.users.find? (fun p => p.1 == uid)).map (fun p => p.2)).getD ""
  let modesArr := (st.modes.filter (fun r => r.user_id == uid)).map
    (fun r => (r.mode_name, r.mode_data))
  let memTables := dedupFirst
    ((st.memory.filter (fun r => r.user_id == uid)).map (fun r => r.table_name))
  match (list_tables engine).1 with
  | .error e => .error e
  | .ok dbTables =>
    match mostRecent (st.sessions.filter (fun r => r.user_id == uid)) with
    | some row =>
      .ok ({ elfrid_prompt := st.elfrid_prompt, world_model := world,
             modes_array := modesArr, memory_tables := memTables,
             db_tables := dbTables, session_id := row.session_id,
             chat_state := row.chat_state }, st)
    | none =>
      match new_session st uid with
      | .error e => .error e
      | .ok (sid, st1) =>
        .ok ({ elfrid_prompt := st.elfrid_prompt, world_model := world,
               modes_array := modesArr, memory_tables := memTables,
               db_tables := dbTables, session_id := sid,
               chat_state := emptyJsonObj }, st1)

/-- db.py `get_session_logs(session_id)`: request/response pairs of the
session, `ORDER BY timestamp` (insertion order in the model). -/
def get_session_logs (st : DB) (sid : Nat) : List (String × String) :=
  (st.logs.filter (fun r => r.session_id == sid)).map (fun r => (r.request, r.response))

/-- db.py `log_interaction(user_id, session_id, request_text,
response_text)`: appends one log row. -/
def log_interaction (st : DB) (uid : Int) (sid : Nat)
    (request_text response_text : String) : DB :=
  { st with
    logs := st.logs ++
      [{ log_id := nextIdOf (st.logs.map (fun r => r.log_id)),
         user_id := uid, session_id := sid, request := request_text,
         response := response_text, timestamp := st.now }],
    now := st.now + 1 }

/-! ## The dispatcher (app.py, StateManager.process_request, step 2)

The context map is a Python dict keyed by synthesized labels; values are
strings, row lists, table lists, or schema dicts. -/

inductive CtxVal where
  | s (v : String) : CtxVal
  | rows (v : List (List (String × Json))) : CtxVal
  | tables (v : List Json) : CtxVal
  | schemas (v : List (String × Json)) : CtxVal

abbrev Ctx : Type := List (String × CtxVal)

/-- Python dict assignment `ctx[k] = v`: overwrite in place or append. -/
def ctxSet (ctx : Ctx) (k : String) (v : CtxVal) : Ctx :=
  if ctx.any (fun p => p.1 == k) then
    ctx.map (fun p => if p.1 == k then (k, v) else p)
  else ctx ++ [(k, v)]

/-- Python dict lookup used by the theorems. -/
def ctxGet (ctx : Ctx) (k : String) : Option CtxVal :=
  (ctx.find? (fun p => p.1 == k)).map (fun p => p.2)

/-- agents/get_time.py `get_time()`: the wall clock (modeled by the `DB`
clock) rendered as the JSON document the agent returns; the civil-time
formatting is abstracted to the counter value. -/
def get_time (now : Nat) : String :=
  "\x7b\"datetime\": \"" ++ toString now ++ "\"\x7d"

/-- app.py lines 128-143, `action == "read"`, `type == "memory"` arm:
`db.execute_query(user_id, "read", table_name)`; the entry is stored only
when the result is truthy.  This arm has no try/except, but the read path
raises nothing once the user is validated.  A non-string `table_name` is
bound as a parameter and matches no TEXT row, so no entry is stored. -/
def hReadMem (parse : String → Option Json) (uid : Int) (st : DB) (ctx : Ctx)
    (tn : Json) : Except PyErr (Ctx × DB) :=
  match tn with
  | .str t =>
    match execute_query parse st uid "read" t .null with
    | (.ok result, st1) =>
      match result with
      | some v => if v != "" then .ok (ctxSet ctx ("memory_" ++ t) (.s v), st1)
                  else .ok (ctx, st1)
      | none => .ok (ctx, st1)
    | (.error e, _) => .error e
  | _ => .ok (ctx, st)

/-- app.py lines 133-143, the `type == "mode"` read arm: an inline SELECT
on the modes table; the entry is stored when a row exists. -/
def hReadMode (uid : Int) (st : DB) (ctx : Ctx) (tn : Json) :
    Except PyErr (Ctx × DB) :=
  match tn with
  | .str t =>
    match st.modes.find? (modeKey uid t) with
    | some r => .ok (ctxSet ctx ("mode_" ++ t) (.s r.mode_data), st)
    | none => .ok (ctx, st)
  | _ => .ok (ctx, st)

/-- app.py lines 146-151, memory update arm: `db.execute_query(user_id,
"update", table_name, data)` inside `try/except ValueError`.  A TypeError
from `json.loads` on truthy non-string data is not caught.  A non-string
`table_name` would insert a non-text key into the memory table, which the
model does not represent. -/
def hUpdateMem (parse : String → Option Json) (uid : Int) (st : DB) (ctx : Ctx)
    (tn d : Json) : Except PyErr (Ctx × DB) :=
  match tn with
  | .str t =>
    match execute_query parse st uid "update" t d with
    | (.ok _, st1) =>
      .ok (ctxSet ctx ("update_memory_" ++ t) (.s ("Updated " ++ t ++ " successfully.")), st1)
    | (.error e, st1) =>
      if e.isValueError then
        .ok (ctxSet ctx ("update_memory_" ++ t) (.s e.msg), st1)
      else .error e
  | _ => .error (.unmodeled "non-string table_name bound into the memory table")

/-- app.py lines 152-158, mode update arm: `json.loads(data)` (TypeError
on non-string data is not caught; JSONDecodeError is), then
`db.update_mode`. -/
def hUpdateMode (parse : String → Option Json) (uid : Int) (st : DB) (ctx : Ctx)
    (tn d : Json) : Except PyErr (Ctx × DB) :=
  match d with
  | .str s =>
    match parse s with
    | none =>
      .ok (ctxSet ctx ("update_mode_" ++ pyStr tn) (.s "Invalid JSON data for mode update"), st)
    | some _ =>
      match tn with
      | .str t =>
        match update_mode st uid t s with
        | (.ok _, st1) =>
          .ok (ctxSet ctx ("update_mode_" ++ t) (.s ("Updated " ++ t ++ " mode successfully.")), st1)
        | (.error e, _) => .error e
      | _ => .error (.unmodeled "non-string mode_name bound into the modes table")
  | _ => .error (.typeError "json.loads expects a string")

/-- app.py lines 161-167, create_table arm: `except ValueError` stores the
message under the same key as success.  Non-string names or schemas reach
TypeErrors inside db.create_table that the model does not chase. -/
def hCreateTable (engine : Engine) (st : DB) (ctx : Ctx) (tn schemaJ : Json) :
    Except PyErr (Ctx × DB) :=
  match tn, schemaJ with
  | .str t, .str s =>
    match (create_table engine t s).1 with
    | .ok msg => .ok (ctxSet ctx ("create_table_" ++ t) (.s msg), st)
    | .error e =>
      if e.isValueError then .ok (ctxSet ctx ("create_table_" ++ t) (.s e.msg), st)
      else .error e
  | _, _ => .error (.unmodeled "non-string arguments to create_table")

/-- app.py lines 169-174, list_tables arm: `except Exception` catches
everything, including raw sqlite3 errors. -/
def hListTables (engine : Engine) (st : DB) (ctx : Ctx) :
    Except PyErr (Ctx × DB) :=
  match (list_tables engine).1 with
  | .ok ts => .ok (ctxSet ctx "list_tables" (.tables ts), st)
  | .error e => .ok (ctxSet ctx "list_tables" (.s e.msg), st)

/-- app.py lines 176-185, get_schema arm: Python truthiness on
`table_name`; only ValueError is caught, so a raw sqlite3 error from
db.get_schema propagates out of the dispatcher. -/
def hGetSchema (engine : Engine) (st : DB) (ctx : Ctx) (tn : Json) :
    Except PyErr (Ctx × DB) :=
  if pyTruthy tn then
    match tn with
    | .str t =>
      match (get_schema engine t).1 with
      | .ok m => .ok (ctxSet ctx ("schema_" ++ t) (.schemas m), st)
      | .error e =>
        if e.isValueError then .ok (ctxSet ctx "schema_error" (.s e.msg), st)
        else .error e
    | _ => .error (.unmodeled "non-string table_name passed to get_schema")
  else
    match (get_schema engine "").1 with
    | .ok m => .ok (ctxSet ctx "all_schemas" (.schemas m), st)
    | .error e =>
      if e.isValueError then .ok (ctxSet ctx "schema_error" (.s e.msg), st)
      else .error e

/-- app.py lines 187-193, execute_query arm: a missing or non-string
`query` raises AttributeError at `query.strip()` (not caught); engine
failures are wrapped as ValueError by db.execute_custom_query and caught. -/
def hExecQuery (engine : Engine) (st : DB) (ctx : Ctx) (q : Json) :
    Except PyErr (Ctx × DB) :=
  match q with
  | .str qs =>
    match (execute_custom_query engine qs []).1 with
    | .ok rows => .ok (ctxSet ctx "query_results" (.rows rows), st)
    | .error e =>
      if e.isValueError then .ok (ctxSet ctx "query_error" (.s e.msg), st)
      else .error e
  | _ => .error (.attributeError "object has no attribute strip")

/-- app.py lines 195-201, insert_data arm: success and error use different
keys. -/
def hInsert (engine : Engine) (st : DB) (ctx : Ctx) (tn d : Json) :
    Except PyErr (Ctx × DB) :=
  match tn with
  | .str t =>
    match (insert_data engine t d).1 with
    | .ok msg => .ok (ctxSet ctx ("insert_" ++ t) (.s msg), st)
    | .error e =>
      if e.isValueError then .ok (ctxSet ctx ("insert_error_" ++ t) (.s e.msg), st)
      else .error e
  | _ => .error (.unmodeled "non-string table_name passed to insert_data")

/-- app.py lines 203-210, update_data arm. -/
def hUpdateData (engine : Engine) (st : DB) (ctx : Ctx) (tn cond d : Json) :
    Except PyErr (Ctx × DB) :=
  match tn with
  | .str t =>
    match (update_data engine t cond d).1 with
    | .ok msg => .ok (ctxSet ctx ("update_" ++ t) (.s msg), st)
    | .error e =>
      if e.isValueError then .ok (ctxSet ctx ("update_error_" ++ t) (.s e.msg), st)
      else .error e
  | _ => .error (.unmodeled "non-string table_name passed to update_data")

/-- app.py lines 212-217, agent call arm: the known agent stores its
result; any other name stores an "Unknown agent" marker. -/
def hCall (st : DB) (ctx : Ctx) (an : Json) : Except PyErr (Ctx × DB) :=
  if an.eqStr "get_time" then
    .ok (ctxSet ctx "agent_get_time" (.s (get_time st.now)), st)
  else
    .ok (ctxSet ctx ("agent_" ++ pyStr an) (.s ("Unknown agent: " ++ pyStr an)), st)

/-- One iteration of the dispatch loop over a JSON object item (app.py
lines 120-217): the if/elif chain on `action` and `type`.  An item whose
action matches no arm falls through with no context entry and no state
change. -/
def dispatch_obj (parse : String → Option Json) (engine : Engine) (uid : Int)
    (st : DB) (ctx : Ctx) (fs : List (String × Json)) : Except PyErr (Ctx × DB) :=
  if (Json.getD fs "action" Json.null).eqStr "read" &&
      ((Json.getD fs "type" (Json.str "")).eqStr "memory" ||
       (Json.getD fs "type" (Json.str "")).eqStr "mode") then
    if (Json.getD fs "type" (Json.str "")).eqStr "memory" then
      hReadMem parse uid st ctx (Json.getD fs "table_name" (Json.str ""))
    else hReadMode uid st ctx (Json.getD fs "table_name" (Json.str ""))
  else if (Json.getD fs "action" Json.null).eqStr "update" &&
      ((Json.getD fs "type" (Json.str "")).eqStr "memory" ||
       (Json.getD fs "type" (Json.str "")).eqStr "mode") then
    if (Json.getD fs "type" (Json.str "")).eqStr "memory" then
      hUpdateMem parse uid st ctx (Json.getD fs "table_name" (Json.str ""))
        (Json.getD fs "data" (Json.str ""))
    else
      hUpdateMode parse uid st ctx (Json.getD fs "table_name" (Json.str ""))
        (Json.getD fs "data" (Json.str ""))
  else if (Json.getD fs "action" Json.null).eqStr "create_table" then
    hCreateTable engine st ctx (Json.getD fs "table_name" (Json.str ""))
      (Json.getD fs "schema" Json.null)
  else if (Json.getD fs "action" Json.null).eqStr "list_tables" then
    hListTables engine st ctx
  else if (Json.getD fs "action" Json.null).eqStr "get_schema" then
    hGetSchema engine st ctx (Json.getD fs "table_name" (Json.str ""))
  else if (Json.getD fs "action" Json.null).eqStr "execute_query" then
    hExecQuery engine st ctx (Json.getD fs "query" Json.null)
  else if (Json.getD fs "action" Json.null).eqStr "insert_data" then
    hInsert engine st ctx (Json.getD fs "table_name" (Json.str ""))
      (Json.getD fs "data" Json.null)
  else if (Json.getD fs "action" Json.null).eqStr "update_data" then
    hUpdateData engine st ctx (Json.getD fs "table_name" (Json.str ""))
      (Json.getD fs "condition" Json.null) (Json.getD fs "data" Json.null)
  else if (Json.getD fs "action" Json.null).eqStr "call" &&
      (Json.getD fs "type" (Json.str "")).eqStr "agent" then
    hCall st ctx (Json.getD fs "agent_name" (Json.str ""))
  else
    .ok (ctx, st)

/-- One plan item: `.get` on a non-dict raises AttributeError. -/
def dispatch_one (parse : String → Option Json) (engine : Engine) (uid : Int)
    (st : DB) (ctx : Ctx) (item : Json) : Except PyErr (Ctx × DB) :=
  match item with
  | .obj fs => dispatch_obj parse engine uid st ctx fs
  | _ => .error (.attributeError "object has no attribute get")

/-- The dispatch loop: items run in plan order; an uncaught exception
aborts the loop, keeping the store changes already committed. -/
def dispatch_all (parse : String → Option Json) (engine : Engine) (uid : Int) :
    DB → Ctx → List Json → Except PyErr Ctx × DB
  | st, ctx, [] => (.ok ctx, st)
  | st, ctx, item :: rest =>
    match dispatch_one parse engine uid st ctx item with
    | .error e => (.error e, st)
    | .ok (ctx1, st1) => dispatch_all parse engine uid st1 ctx1 rest

/-! ## The orchestrator (app.py, StateManager.process_request) -/

/-- app.py lines 103-109: strip the response; if it contains a code fence,
take the text between the first pair of fences (`split` piece 1), dropping
a leading `json` tag. -/
def cleanup (s : String) : String :=
  let c := pyStrip s
  if pyHasSub "```" c then
    let block := ((pySplitOn "```" c).drop 1).headD ""
    if pyStartsWith "json" block then pyStrip (String.mk (block.data.drop 4))
    else pyStrip block
  else c

/-- app.py lines 102-116: the cleaned response must parse as a JSON array
(`json.loads` then `isinstance(actions, list)`); both failure modes raise
the same ValueError. -/
def parsePlan (parse : String → Option Json) (resp : String) : Option (List Json) :=
  match parse (cleanup resp) with
  | some (.arr items) => some items
  | _ => none

/-- Rendering of a string list spliced into a prompt; stands in for
`json.dumps` (standard library).  No theorem depends on prompt text. -/
def renderList (l : List String) : String :=
  "[" ++ joinSep ", " l ++ "]"

/-- app.py lines 65-98: the planning prompt.  The fixed instruction prose
of the f-string is abbreviated; the prompt remains a function of exactly
the data the source splices in. -/
def planPrompt (cb : ContextBundle) (sessionLogs : List (String × String))
    (input : String) : String :=
  "You are Elfrid, a butler AI analyzing a request.\n" ++
  "Available modes: " ++ renderList (cb.modes_array.map (fun p => p.1 ++ "=" ++ p.2)) ++ ".\n" ++
  "Memory tables: " ++ renderList cb.memory_tables ++ ".\n" ++
  "Database tables: " ++ renderList (cb.db_tables.map pyStr) ++ ".\n" ++
  "Session history: " ++ renderList (sessionLogs.map (fun p => p.1 ++ "=" ++ p.2)) ++ ".\n" ++
  "Input: " ++ input ++ ".\n" ++
  "Return a JSON array of actions. Return [] if no actions needed.\n"

/-- Rendering of a context value for the synthesis prompt. -/
def renderCtxVal : CtxVal → String
  | .s v => v
  | .rows v => "[" ++ joinSep ", " (v.map (fun r => renderList (r.map (fun p => p.1 ++ "=" ++ pyStr p.2)))) ++ "]"
  | .tables v => renderList (v.map pyStr)
  | .schemas v => renderList (v.map (fun p => p.1 ++ "=" ++ pyStr p.2))

/-- app.py lines 223-237: the synthesis prompt (prose abbreviated, spliced
data kept). -/
def finalPrompt (cb : ContextBundle) (ctx : Ctx) (updatedTables : List Json)
    (sessionLogs : List (String × String)) (input : String) : String :=
  "You are Elfrid, defined by: " ++ cb.elfrid_prompt ++ ".\n" ++
  "User world model: " ++ cb.world_model ++ ".\n" ++
  "Available modes: " ++ renderList (cb.modes_array.map (fun p => p.1 ++ "=" ++ p.2)) ++ ".\n" ++
  "Memory tables: " ++ renderList cb.memory_tables ++ ".\n" ++
  "Database tables: " ++ renderList (updatedTables.map pyStr) ++ ".\n" ++
  "Current session state: " ++ cb.chat_state ++ ".\n" ++
  "Session history: " ++ renderList (sessionLogs.map (fun p => p.1 ++ "=" ++ p.2)) ++ ".\n" ++
  "Additional context from actions: " ++
    renderList (ctx.map (fun p => p.1 ++ "=" ++ renderCtxVal p.2)) ++ ".\n" ++
  "User request: " ++ input ++ "\n"

/-- app.py lines 48-49: `db.get_context` followed by
`db.get_session_logs` for the resolved session. -/
def gatherContext (engine : Engine) (st : DB) (uid : Int) :
    Except PyErr (ContextBundle × List (String × String) × DB) :=
  match get_context engine st uid with
  | .error e => .error e
  | .ok (cb, st1) => .ok (cb, get_session_logs st1 cb.session_id, st1)

/-- The observable outcome of one pipeline run: the returned text or the
exception, the final store, and the prompts sent to the completion
service, in order (the trace that lets a theorem say "no LLM call was
made"). -/
structure RunResult where
  outcome : Except PyErr String
  db : DB
  prompts : List String

/-- app.py `StateManager.process_request(user_id, input_text)`: validate
the user, gather context, first LLM call, parse the plan (ValueError on a
non-array), dispatch the actions, re-list the tables, second LLM call,
log the interaction, return the reply.  The completion service is the
oracle `llm`; the LLM calls of a run are exactly the prompts in the trace. -/
def process_request (parse : String → Option Json) (engine : Engine)
    (llm : String → String) (st : DB) (uid : Int) (input : String) : RunResult :=
  match validate_user st uid with
  | .error e => ⟨.error e, st, []⟩
  | .ok _ =>
    match gatherContext engine st uid with
    | .error e => ⟨.error e, st, []⟩
    | .ok (cb, sessionLogs, st1) =>
      let p1 := planPrompt cb sessionLogs input
      match parsePlan parse (llm p1) with
      | none => ⟨.error .malformedPlan, st1, [p1]⟩
      | some items =>
        match dispatch_all parse engine uid st1 [] items with
        | (.error e, st2) => ⟨.error e, st2, [p1]⟩
        | (.ok ctx, st2) =>
          match (list_tables engine).1 with
          | .error e => ⟨.error e, st2, [p1]⟩
          | .ok updatedTables =>
            let p2 := finalPrompt cb ctx updatedTables sessionLogs input
            let finalResponse := llm p2
            ⟨.ok finalResponse,
              log_interaction st2 uid cb.session_id input finalResponse,
              [p1, p2]⟩

/-! ## Auxiliary definitions for the theorems -/

/-- Did the operation fail with the identifier-gate error
(`InvalidIdentifierError` of the spec)? -/
def isIdentErr {α : Type} : Except PyErr α → Bool
  | .error (.invalidIdentifier _) => true
  | _ => false

/-- An engine oracle that accepts every statement (lastrowid 1, rowcount 1,
no rows); used to instantiate theorems at concrete inputs. -/
def engOk : Engine := fun _ => .ok 1 1 []

/-- An engine oracle whose catalog holds the two fixed tables `users` and
`modes`; used to exhibit the all-tables branch of `get_schema`. -/
def engTwoTables : Engine := fun c =>
  if c.sql == catalogAllSql then
    .ok 0 0 [[("name", .str "users"), ("sql", .str "CREATE TABLE users (user_id INTEGER PRIMARY KEY)")],
             [("name", .str "modes"), ("sql", .str "CREATE TABLE modes (mode_id INTEGER PRIMARY KEY)")]]
  else .ok 0 0 []

/-- A JSON parser oracle that rejects every string; stands for runs whose
plan text is not JSON. -/
def parseNone : String → Option Json := fun _ => none

/-- A JSON parser oracle that accepts every string (as JSON null); enough
for theorems that only need validation to succeed. -/
def parseAny : String → Option Json := fun _ => some .null

/-- Two memory rows with distinct (user_id, table_name) keys. -/
def pairDistinctMem (a b : MemRow) : Prop :=
  ¬(a.user_id = b.user_id ∧ a.table_name = b.table_name)

/-- The spec invariant: every memory row is unique per (user_id, name). -/
def memUniq (st : DB) : Prop :=
  st.memory.Pairwise pairDistinctMem

/-- Two mode rows with distinct (user_id, mode_name) keys. -/
def pairDistinctMode (a b : ModeRow) : Prop :=
  ¬(a.user_id = b.user_id ∧ a.mode_name = b.mode_name)

/-- The spec invariant: every mode row is unique per (user_id, name). -/
def modeUniq (st : DB) : Prop :=
  st.modes.Pairwise pairDistinctMode

/-- The engine answers the three fixed catalog queries of db.py without a
sqlite error (they read sqlite_master; a failure there is a broken
database file, outside every claim). -/
def catalogOk (engine : Engine) : Prop :=
  (engine ⟨catalogNamesSql, []⟩).isOk = true ∧
  (engine ⟨catalogAllSql, []⟩).isOk = true ∧
  ∀ t : String, (engine ⟨catalogOneSql, [.str t]⟩).isOk = true

/-- Plan-item fields that keep the dispatcher inside the modeled,
exception-free domain: wherever an arm of the if/elif chain feeds a field
into a string position (an identifier check, `json.loads`, `.strip()`, an
SQL text parameter key), that field must be a JSON string; fields an arm
never touches are unconstrained.  Items failing this would raise
TypeError/AttributeError in Python (or bind non-text keys into the fixed
tables, which the model does not represent). -/
def wellTypedFields (fs : List (String × Json)) : Bool :=
  if (Json.getD fs "action" Json.null).eqStr "read" &&
      ((Json.getD fs "type" (Json.str "")).eqStr "memory" ||
       (Json.getD fs "type" (Json.str "")).eqStr "mode") then true
  else if (Json.getD fs "action" Json.null).eqStr "update" &&
      ((Json.getD fs "type" (Json.str "")).eqStr "memory" ||
       (Json.getD fs "type" (Json.str "")).eqStr "mode") then
    if (Json.getD fs "type" (Json.str "")).eqStr "memory" then
      (Json.getD fs "table_name" (Json.str "")).isStr &&
      (!(pyTruthy (Json.getD fs "data" (Json.str ""))) ||
       (Json.getD fs "data" (Json.str "")).isStr)
    else
      (Json.getD fs "table_name" (Json.str "")).isStr &&
      (Json.getD fs "data" (Json.str "")).isStr
  else if (Json.getD fs "action" Json.null).eqStr "create_table" then
    (Json.getD fs "table_name" (Json.str "")).isStr &&
    (Json.getD fs "schema" Json.null).isStr
  else if (Json.getD fs "action" Json.null).eqStr "list_tables" then true
  else if (Json.getD fs "action" Json.null).eqStr "get_schema" then
    !(pyTruthy (Json.getD fs "table_name" (Json.str ""))) ||
    (Json.getD fs "table_name" (Json.str "")).isStr
  else if (Json.getD fs "action" Json.null).eqStr "execute_query" then
    (Json.getD fs "query" Json.null).isStr
  else if (Json.getD fs "action" Json.null).eqStr "insert_data" then
    (Json.getD fs "table_name" (Json.str "")).isStr
  else if (Json.getD fs "action" Json.null).eqStr "update_data" then
    (Json.getD fs "table_name" (Json.str "")).isStr
  else true

/-- A plan item in the modeled, exception-free domain: a JSON object whose
fields are well typed for the arm it selects. -/
def wellTypedItem : Json → Bool
  | .obj fs => wellTypedFields fs
  | _ => false

/-- Does the item select any arm of the if/elif chain of the dispatcher? -/
def recognizedFields (fs : List (String × Json)) : Bool :=
  ((Json.getD fs "action" Json.null).eqStr "read" &&
    ((Json.getD fs "type" (Json.str "")).eqStr "memory" ||
     (Json.getD fs "type" (Json.str "")).eqStr "mode")) ||
  ((Json.getD fs "action" Json.null).eqStr "update" &&
    ((Json.getD fs "type" (Json.str "")).eqStr "memory" ||
     (Json.getD fs "type" (Json.str "")).eqStr "mode")) ||
  (Json.getD fs "action" Json.null).eqStr "create_table" ||
  (Json.getD fs "action" Json.null).eqStr "list_tables" ||
  (Json.getD fs "action" Json.null).eqStr "get_schema" ||
  (Json.getD fs "action" Json.null).eqStr "execute_query" ||
  (Json.getD fs "action" Json.null).eqStr "insert_data" ||
  (Json.getD fs "action" Json.null).eqStr "update_data" ||
  ((Json.getD fs "action" Json.null).eqStr "call" &&
    (Json.getD fs "type" (Json.str "")).eqStr "agent")

/-- Did the computation return normally (no exception)? -/
def exceptOk {ε α : Type} : Except ε α → Bool
  | .ok _ => true
  | .error _ => false

/-- A JSON parser oracle that accepts exactly the text of the empty object
(as Python json.loads would); used to instantiate theorems that need both
a parseable and an unparseable input. -/
def parseFixture : String → Option Json := fun s =>
  if s == "\x7b\x7d" then some (.obj []) else none

/-- A concrete store used to instantiate theorems: the config prompt, one
user (id 1), and nothing else. -/
def st0 : DB :=
  { elfrid_prompt := "You are Elfrid.", users := [(1, "worldmodel")],
    modes := [], memory := [], sessions := [], logs := [], now := 0 }

-- Sanity checks of the string helpers against Python behavior.
example : pyStrip "  a b\n" = "a b" := by decide
example : pyLower "SeLeCt" = "select" := by decide
example : pyStartsWith "select" "select * from t" = true := by decide
example : pyHasChar ';' "a;b" = true := by decide
example : pyEndsWith ";" (pyStrip "x; ") = true := by decide
example : pySplitOn "```" "a```json x```b" = ["a", "json x", "b"] := by decide
example : pyHasSub "```" "no fences" = false := by decide
example : validIdent "good_name3" = true := by decide
example : validIdent "bad name!" = false := by decide
example : validIdent "" = true := by decide
example : pyIsAlnum 'é' = true := by decide
example : pyIsAlnum '×' = false := by decide
example : pyIsAlnum '²' = true := by decide

/-! ## C1: the identifier gate -/

/-- On an ASCII string, the db.py gate coincides with the claim's
character class `[A-Za-z0-9_]`. -/
theorem validIdent_ascii (t : String)
    (hA : t.data.all (fun c => c.toNat < 128) = true) :
    validIdent t = t.data.all (fun c => c.isAlphanum || c == '_') := by
  unfold validIdent
  obtain ⟨l⟩ := t
  show l.all _ = l.all _
  induction l with
  | nil => rfl
  | cons c cs ih =>
    simp only [List.all_cons, Bool.and_eq_true, decide_eq_true_eq] at hA
    have hc : pyIsAlnum c = c.isAlphanum := by
      unfold pyIsAlnum
      rw [if_pos hA.1]
    simp only [List.all_cons, hc, ih hA.2]

/-- Claim C1 counterexample, refuting both halves of the claim.
Column names: `insert_data` into the fixed table `memory` with the column
name "bad col!" (characters outside the allow-list) does not fail with an
identifier error; it succeeds and the raw column name is interpolated into
the SQL handed to the engine — column names are never validated.
Table names: the gate is Python `isalnum`, which is Unicode-aware, so the
table name "café" — whose é is outside `[A-Za-z0-9_]` — passes the gate
and is interpolated into the SQL without any identifier error. -/
theorem c1_counterexample :
    insert_data engOk "memory" (.obj [("bad col!", .str "v")]) =
      (.ok "Data inserted into \x27memory\x27 with ID 1",
       [⟨"INSERT INTO memory (bad col!) VALUES (?)", [.str "v"]⟩]) ∧
    validIdent "café" = true ∧
    insert_data engOk "café" (.obj [("a", .num 1)]) =
      (.ok "Data inserted into \x27café\x27 with ID 1",
       [⟨"INSERT INTO café (a) VALUES (?)", [.num 1]⟩]) :=
  ⟨rfl, rfl, rfl⟩

/-- Claim C1 (amended): the per-character gate is applied to the table
name only, and the gate is Python isalnum-or-underscore, which is wider
than `[A-Za-z0-9_]`.  For every ASCII table name containing a character
outside `[A-Za-z0-9_]`, `create_table`, `insert_data` and `update_data`
fail with the identifier error and hand no SQL to the engine (the store
is untouched).  Non-ASCII alphanumerics such as é pass the gate (see the
counterexample), and column names pass through unvalidated. -/
theorem c1_table_identifier_gate (engine : Engine) (t schema : String)
    (cond data : Json)
    (hA : t.data.all (fun c => c.toNat < 128) = true)
    (h : t.data.all (fun c => c.isAlphanum || c == '_') = false) :
    create_table engine t schema = (.error (.invalidIdentifier t), []) ∧
    insert_data engine t data = (.error (.invalidIdentifier t), []) ∧
    update_data engine t cond data = (.error (.invalidIdentifier t), []) := by
  have hv : validIdent t = false := by
    rw [validIdent_ascii t hA]
    exact h
  exact ⟨by simp [create_table, hv], by simp [insert_data, hv],
    by simp [update_data, hv]⟩

/-- Witness for `c1_table_identifier_gate` at the concrete ASCII table
name "bad name!". -/
theorem c1_table_identifier_gate_witness :
    create_table engOk "bad name!" "CREATE TABLE x (a)" =
      (.error (.invalidIdentifier "bad name!"), []) ∧
    insert_data engOk "bad name!" (.obj [("a", .num 1)]) =
      (.error (.invalidIdentifier "bad name!"), []) ∧
    update_data engOk "bad name!" (.obj [("a", .num 1)]) (.obj [("b", .num 2)]) =
      (.error (.invalidIdentifier "bad name!"), []) :=
  c1_table_identifier_gate engOk "bad name!" "CREATE TABLE x (a)"
    (.obj [("a", .num 1)]) (.obj [("b", .num 2)]) (by decide) (by decide)

/-! ## C2: the statement-stacking heuristic -/

/-- Claim C2 counterexample: a ddl text made of two stacked statements,
each terminated by a semicolon, contains a separator well before the end,
yet `create_table` does not fail with the unsafe-statement error: the
check only fires when the trimmed text does not end in a semicolon, so the
stacked text is handed to the engine. -/
theorem c2_counterexample :
    create_table engOk "t" "CREATE TABLE a (x); DROP TABLE b;" =
      (.ok "Table \x27t\x27 created successfully",
       [⟨"CREATE TABLE a (x); DROP TABLE b;", []⟩]) := by
  rfl

/-- Claim C2 (amended): for a valid table name, `create_table` fails with
the unsafe-statement error exactly when the ddl text contains a semicolon
and its trimmed form does not end with one; otherwise the text — stacked
statements included — is handed to the engine as a single execute call. -/
theorem c2_semicolon_heuristic (engine : Engine) (t s : String)
    (ht : validIdent t = true) :
    ((pyHasChar ';' s && !(pyEndsWith ";" (pyStrip s))) = true →
      create_table engine t s = (.error .unsafeStatement, [])) ∧
    ((pyHasChar ';' s && !(pyEndsWith ";" (pyStrip s))) = false →
      (create_table engine t s).2 = [⟨s, []⟩]) := by
  constructor
  · intro h
    simp [create_table, ht, h]
  · intro h
    simp only [create_table, ht, h, Bool.not_true, Bool.false_eq_true, if_false]
    cases engine ⟨s, []⟩ <;> simp

/-- Witness for `c2_semicolon_heuristic`: the separator in the middle of
"DROP TABLE a; DROP TABLE b" (no trailing semicolon) is rejected. -/
theorem c2_semicolon_heuristic_witness :
    create_table engOk "t" "DROP TABLE a; DROP TABLE b" =
      (.error .unsafeStatement, []) :=
  (c2_semicolon_heuristic engOk "t" "DROP TABLE a; DROP TABLE b" (by decide)).1
    (by decide)

/-! ## C7: the read-only query gate -/

/-- Claim C7: a query whose trimmed, lowercased text does not start with
"select" is rejected with no engine call; an accepted query is handed to
the engine as-is and on success its rows come back as ordered column-name
to value mappings. -/
theorem c7_select_gate (engine : Engine) (q : String) (params : List Json) :
    (pyStartsWith "select" (pyLower (pyStrip q)) = false →
      execute_custom_query engine q params = (.error .rejectedQuery, [])) ∧
    (pyStartsWith "select" (pyLower (pyStrip q)) = true →
      (execute_custom_query engine q params).2 = [⟨q, params⟩] ∧
      ∀ lr rc rows, engine ⟨q, params⟩ = .ok lr rc rows →
        (execute_custom_query engine q params).1 = .ok rows) := by
  constructor
  · intro h; simp [execute_custom_query, h]
  · intro h
    constructor
    · simp only [execute_custom_query, h]
      cases engine ⟨q, params⟩ <;> simp
    · intro lr rc rows hr
      simp [execute_custom_query, h, hr]

/-- Witness for `c7_select_gate`: a DELETE is rejected without execution;
an uppercase SELECT with surrounding space is accepted and returns the
oracle rows. -/
theorem c7_select_gate_witness :
    execute_custom_query engOk "DELETE FROM logs" [] = (.error .rejectedQuery, []) ∧
    (execute_custom_query engOk " SELECT name FROM users" []).1 = .ok [] :=
  ⟨(c7_select_gate engOk "DELETE FROM logs" []).1 (by decide),
   ((c7_select_gate engOk " SELECT name FROM users" []).2 (by decide)).2 1 1 [] rfl⟩

/-! ## C10: the empty identifier -/

/-- Claim C10 counterexample: `get_schema` with the empty table name never
reaches the identifier check or interpolates the empty identifier — the
Python truthiness test on the argument routes it to the all-tables branch,
whose emitted SQL is the fixed catalog query and whose result lists every
table. -/
theorem c10_counterexample :
    get_schema engTwoTables "" =
      (.ok [("users", .str "CREATE TABLE users (user_id INTEGER PRIMARY KEY)"),
            ("modes", .str "CREATE TABLE modes (mode_id INTEGER PRIMARY KEY)")],
       [⟨catalogAllSql, []⟩]) := by
  rfl

/-- Claim C10 (amended): no operation raises an identifier error for the
empty table name (the per-character check is vacuous on it).  In
`insert_data`/`update_data` the empty name is interpolated into the SQL
text, so failure can only surface from the engine; `create_table` executes
the schema text, in which the name plays no part; `get_schema` treats the
empty name as absent and issues the all-tables catalog query. -/
theorem c10_empty_identifier (engine : Engine) (schema : String) (cond : Json)
    (fields : List (String × Json)) :
    isIdentErr (create_table engine "" schema).1 = false ∧
    isIdentErr (insert_data engine "" (.obj fields)).1 = false ∧
    isIdentErr (update_data engine "" cond (.obj fields)).1 = false ∧
    isIdentErr (get_schema engine "").1 = false ∧
    (get_schema engine "").2 = [⟨catalogAllSql, []⟩] ∧
    (fields ≠ [] →
      (insert_data engine "" (.obj fields)).2 =
        [⟨"INSERT INTO  (" ++ joinSep ", " (fields.map (fun p => p.1)) ++
          ") VALUES (" ++ joinSep ", " (fields.map (fun _ => "?")) ++ ")",
          fields.map (fun p => p.2)⟩]) := by
  have hv : validIdent "" = true := by decide
  refine ⟨?_, ?_, ?_, ?_, ?_, ?_⟩
  · simp only [create_table, hv, Bool.not_true, Bool.false_eq_true, if_false]
    split
    · simp [isIdentErr]
    · cases engine ⟨schema, []⟩ <;> simp [isIdentErr]
  · simp only [insert_data, hv, Bool.not_true, Bool.false_eq_true, if_false]
    split
    · simp [isIdentErr]
    · cases engine ⟨_, _⟩ <;> simp [isIdentErr]
  · simp only [update_data, hv, Bool.not_true, Bool.false_eq_true, if_false]
    split
    · simp [isIdentErr]
    · rcases cond with _ | b | n | s | l | cFields
      · simp [isIdentErr]
      · simp [isIdentErr]
      · simp [isIdentErr]
      · simp [isIdentErr]
      · simp [isIdentErr]
      · by_cases hc : cFields.isEmpty
        · simp [hc, isIdentErr]
        · simp only [hc, Bool.false_eq_true, if_false]
          cases engine ⟨_, _⟩ <;> simp [isIdentErr]
  · simp only [get_schema]
    norm_num
    cases engine ⟨catalogAllSql, []⟩ <;> simp [isIdentErr]
  · simp only [get_schema]
    norm_num
    cases engine ⟨catalogAllSql, []⟩ <;> simp
  · intro hne
    simp only [insert_data, hv, Bool.not_true, Bool.false_eq_true, if_false]
    have hemp : fields.isEmpty = false := by
      cases fields
      · exact absurd rfl hne
      · rfl
    rw [hemp]
    simp only [Bool.false_eq_true, if_false, List.map_map, Function.comp]
    rw [show ("INSERT INTO " ++ "" ++ " (" : String) = "INSERT INTO  (" from by decide]
    cases engine ⟨_, _⟩ <;> rfl

/-- Witness for `c10_empty_identifier` at concrete inputs: no identifier
error for the empty name, the empty name interpolated into the INSERT
text, and the all-tables catalog query emitted by `get_schema`. -/
theorem c10_empty_identifier_witness :
    isIdentErr (create_table engOk "" "CREATE TABLE t (a)").1 = false ∧
    isIdentErr (insert_data engOk "" (.obj [("a", .num 1)])).1 = false ∧
    (insert_data engOk "" (.obj [("a", .num 1)])).2 =
      [⟨"INSERT INTO  (a) VALUES (?)", [.num 1]⟩] ∧
    (get_schema engOk "").2 = [⟨catalogAllSql, []⟩] := by
  have h := c10_empty_identifier engOk "CREATE TABLE t (a)" (.obj [("b", .num 2)])
    [("a", .num 1)]
  refine ⟨h.1, h.2.1, ?_, h.2.2.2.2.1⟩
  rw [h.2.2.2.2.2 (List.cons_ne_nil _ _)]
  rfl

/-! ## Upsert lemmas (db.py execute_query update branch, update_mode) -/

/-- Filtering by a key a row satisfies, in a list whose keys are pairwise
distinct, yields exactly that row. -/
theorem filter_memKey_eq_single {l : List MemRow} {uid : Int} {t : String}
    {r : MemRow} (huniq : l.Pairwise pairDistinctMem) (hr : r ∈ l)
    (hk : memKey uid t r = true) : l.filter (memKey uid t) = [r] := by
  have hkey : ∀ x : MemRow, memKey uid t x = true ↔ x.user_id = uid ∧ x.table_name = t := by
    intro x; simp [memKey]
  induction l with
  | nil => cases hr
  | cons a tl ih =>
    rcases List.pairwise_cons.mp huniq with ⟨ha, htl⟩
    rcases List.mem_cons.mp hr with rfl | hmem
    · rw [List.filter_cons_of_pos hk]
      have : tl.filter (memKey uid t) = [] := by
        rw [List.filter_eq_nil_iff]
        intro x hx hkx
        exact ha x hx ⟨((hkey r).mp hk).1.trans ((hkey x).mp hkx).1.symm,
          ((hkey r).mp hk).2.trans ((hkey x).mp hkx).2.symm⟩
      rw [this]
    · have hka : memKey uid t a = false := by
        by_contra hne
        have hka : memKey uid t a = true := by
          cases h : memKey uid t a
          · exact absurd h hne
          · rfl
        exact ha r hmem ⟨((hkey a).mp hka).1.trans ((hkey r).mp hk).1.symm,
          ((hkey a).mp hka).2.trans ((hkey r).mp hk).2.symm⟩
      rw [List.filter_cons_of_neg (by simp [hka])]
      exact ih htl hmem

/-- The function `upsertMem` does not touch the users table. -/
theorem upsertMem_users (st : DB) (uid : Int) (t s : String) :
    (upsertMem st uid t s).users = st.users := by
  unfold upsertMem; cases st.memory.find? (memKey uid t) <;> rfl

/-- After one upsert, the rows matching the key are exactly one row whose
data is the upserted string. -/
theorem upsertMem_filter (st : DB) (uid : Int) (t s : String)
    (huniq : memUniq st) :
    (((upsertMem st uid t s).memory.filter (memKey uid t)).map
      (fun r => r.data)) = [s] := by
  unfold upsertMem
  cases hf : st.memory.find? (memKey uid t) with
  | none =>
    have h1 : st.memory.filter (memKey uid t) = [] := by
      rw [List.filter_eq_nil_iff]
      intro x hx hkx
      exact absurd hkx (by simpa using List.find?_eq_none.mp hf x hx)
    simp only [List.filter_append, h1, List.nil_append]
    rw [List.filter_cons_of_pos (by simp [memKey])]
    rfl
  | some r =>
    have hk : memKey uid t r = true := List.find?_some hf
    have hmem : r ∈ st.memory := List.mem_of_find?_eq_some hf
    have hg : ∀ r2 : MemRow,
        memKey uid t (if r2.memory_id == r.memory_id then
          { r2 with data := s, last_updated := st.now } else r2) = memKey uid t r2 := by
      intro r2; by_cases h : (r2.memory_id == r.memory_id) = true <;> simp [h, memKey]
    have hcomm : ∀ l : List MemRow,
        (l.map (fun r2 => if r2.memory_id == r.memory_id then
          { r2 with data := s, last_updated := st.now } else r2)).filter (memKey uid t) =
        (l.filter (memKey uid t)).map (fun r2 => if r2.memory_id == r.memory_id then
          { r2 with data := s, last_updated := st.now } else r2) := by
      intro l
      induction l with
      | nil => rfl
      | cons a tl ih =>
        by_cases h : memKey uid t a = true
        · rw [List.map_cons, List.filter_cons_of_pos (by rw [hg a]; exact h),
            List.filter_cons_of_pos h, List.map_cons, ih]
        · rw [List.map_cons, List.filter_cons_of_neg (by rw [hg a]; simpa using h),
            List.filter_cons_of_neg (by simpa using h), ih]
    simp only
    rw [hcomm, filter_memKey_eq_single huniq hmem hk]
    simp

/-- One upsert preserves the per-(user_id, name) uniqueness invariant. -/
theorem upsertMem_uniq (st : DB) (uid : Int) (t s : String)
    (huniq : memUniq st) : memUniq (upsertMem st uid t s) := by
  unfold memUniq upsertMem
  cases hf : st.memory.find? (memKey uid t) with
  | none =>
    simp only
    rw [List.pairwise_append]
    refine ⟨huniq, List.pairwise_singleton _ _, ?_⟩
    intro a ha b hb
    rw [List.mem_singleton] at hb
    subst hb
    have hka : memKey uid t a = false := by
      simpa using List.find?_eq_none.mp hf a ha
    intro hcontra
    have hkt : memKey uid t a = true := by
      simp only [memKey]
      simp only [hcontra.1, hcontra.2]
      simp
    rw [hkt] at hka; cases hka
  | some r =>
    simp only
    rw [List.pairwise_map]
    refine huniq.imp ?_
    intro a b hab
    by_cases h1 : (a.memory_id == r.memory_id) = true <;>
      by_cases h2 : (b.memory_id == r.memory_id) = true <;>
        simp [pairDistinctMem, h1, h2] at hab ⊢ <;> exact hab

/-- Mirror of `filter_memKey_eq_single` for mode rows. -/
theorem filter_modeKey_eq_single {l : List ModeRow} {uid : Int} {t : String}
    {r : ModeRow} (huniq : l.Pairwise pairDistinctMode) (hr : r ∈ l)
    (hk : modeKey uid t r = true) : l.filter (modeKey uid t) = [r] := by
  have hkey : ∀ x : ModeRow, modeKey uid t x = true ↔ x.user_id = uid ∧ x.mode_name = t := by
    intro x; simp [modeKey]
  induction l with
  | nil => cases hr
  | cons a tl ih =>
    rcases List.pairwise_cons.mp huniq with ⟨ha, htl⟩
    rcases List.mem_cons.mp hr with rfl | hmem
    · rw [List.filter_cons_of_pos hk]
      have : tl.filter (modeKey uid t) = [] := by
        rw [List.filter_eq_nil_iff]
        intro x hx hkx
        exact ha x hx ⟨((hkey r).mp hk).1.trans ((hkey x).mp hkx).1.symm,
          ((hkey r).mp hk).2.trans ((hkey x).mp hkx).2.symm⟩
      rw [this]
    · have hka : modeKey uid t a = false := by
        by_contra hne
        have hka : modeKey uid t a = true := by
          cases h : modeKey uid t a
          · exact absurd h hne
          · rfl
        exact ha r hmem ⟨((hkey a).mp hka).1.trans ((hkey r).mp hk).1.symm,
          ((hkey a).mp hka).2.trans ((hkey r).mp hk).2.symm⟩
      rw [List.filter_cons_of_neg (by simp [hka])]
      exact ih htl hmem

/-- After one mode upsert, the rows matching the key are exactly one row
whose data is the upserted string (validated or not). -/
theorem upsertMode_filter (st : DB) (uid : Int) (t s : String)
    (huniq : modeUniq st) :
    (((upsertMode st uid t s).modes.filter (modeKey uid t)).map
      (fun r => r.mode_data)) = [s] := by
  unfold upsertMode
  cases hf : st.modes.find? (modeKey uid t) with
  | none =>
    have h1 : st.modes.filter (modeKey uid t) = [] := by
      rw [List.filter_eq_nil_iff]
      intro x hx hkx
      exact absurd hkx (by simpa using List.find?_eq_none.mp hf x hx)
    simp only [List.filter_append, h1, List.nil_append]
    rw [List.filter_cons_of_pos (by simp [modeKey])]
    rfl
  | some r =>
    have hk : modeKey uid t r = true := List.find?_some hf
    have hmem : r ∈ st.modes := List.mem_of_find?_eq_some hf
    have hg : ∀ r2 : ModeRow,
        modeKey uid t (if r2.mode_id == r.mode_id then
          { r2 with mode_data := s, last_updated := st.now } else r2) = modeKey uid t r2 := by
      intro r2; by_cases h : (r2.mode_id == r.mode_id) = true <;> simp [h, modeKey]
    have hcomm : ∀ l : List ModeRow,
        (l.map (fun r2 => if r2.mode_id == r.mode_id then
          { r2 with mode_data := s, last_updated := st.now } else r2)).filter (modeKey uid t) =
        (l.filter (modeKey uid t)).map (fun r2 => if r2.mode_id == r.mode_id then
          { r2 with mode_data := s, last_updated := st.now } else r2) := by
      intro l
      induction l with
      | nil => rfl
      | cons a tl ih =>
        by_cases h : modeKey uid t a = true
        · rw [List.map_cons, List.filter_cons_of_pos (by rw [hg a]; exact h),
            List.filter_cons_of_pos h, List.map_cons, ih]
        · rw [List.map_cons, List.filter_cons_of_neg (by rw [hg a]; simpa using h),
            List.filter_cons_of_neg (by simpa using h), ih]
    simp only
    rw [hcomm, filter_modeKey_eq_single huniq hmem hk]
    simp

/-- Computation lemma: a memory upsert with an existing user, truthy data
and parseable JSON takes the write path. -/
theorem execute_query_update_ok (parse : String → Option Json) (st : DB)
    (uid : Int) (t d : String) (hu : userExists st uid = true)
    (hne : (d == "") = false) (hp : (parse d).isSome = true) :
    execute_query parse st uid "update" t (.str d) = (.ok none, upsertMem st uid t d) := by
  obtain ⟨j, hj⟩ := Option.isSome_iff_exists.mp hp
  have h1 : (("update" : String) == "read") = false := by decide
  have h2 : (("update" : String) == "update") = true := by decide
  have hd : d ≠ "" := by simpa using hne
  simp [execute_query, hu, hj, pyTruthy, hne, h1, h2, hd]

/-! ## C4: upsert validation -/

/-- Claim C4 counterexample: `update_mode` (the storage-layer upsertMode)
accepts the non-JSON string "not json" for an existing user: it neither
fails with a data error nor leaves the store unchanged — it writes the
invalid text into the modes table.  (The `json.loads` guard for mode
updates lives in the dispatcher, app.py line 154, not in the storage
layer.) -/
theorem c4_counterexample :
    (update_mode st0 1 "work" "not json").1 = .ok () ∧
    ((update_mode st0 1 "work" "not json").2.modes.map
      (fun r => (r.mode_name, r.mode_data))) = [("work", "not json")] :=
  ⟨rfl, rfl⟩

/-- Claim C4 (amended): for an existing user, `upsertMemory`
(the update action of execute_query) validates its data — invalid JSON or empty
data fails with the data error and leaves the store unchanged, valid JSON
is upserted keyed on (user, name) — while `upsertMode` (update_mode)
performs no JSON validation at the storage layer: it upserts any string
keyed on (user, name), valid or not. -/
theorem c4_upsert_validation (parse : String → Option Json) (st : DB) (u : Int)
    (t d : String) (hu : userExists st u = true) :
    (parse d = none → d ≠ "" →
      execute_query parse st u "update" t (.str d) =
        (.error (.invalidData invalidJsonUpdateMsg), st)) ∧
    (execute_query parse st u "update" t (.str "") =
      (.error (.invalidData dataRequiredMsg), st)) ∧
    ((parse d).isSome = true → d ≠ "" → memUniq st →
      (execute_query parse st u "update" t (.str d)).1 = .ok none ∧
      (((execute_query parse st u "update" t (.str d)).2.memory.filter (memKey u t)).map
        (fun r => r.data)) = [d]) ∧
    (∀ s : String, update_mode st u t s = (.ok (), upsertMode st u t s)) ∧
    (∀ s : String, modeUniq st →
      (((upsertMode st u t s).modes.filter (modeKey u t)).map
        (fun r => r.mode_data)) = [s]) := by
  have h1 : (("update" : String) == "read") = false := by decide
  have h2 : (("update" : String) == "update") = true := by decide
  refine ⟨?_, ?_, ?_, ?_, ?_⟩
  · intro hn hd
    simp [execute_query, hu, pyTruthy, hn, h1, h2, hd]
  · simp [execute_query, hu, pyTruthy, h1, h2]
  · intro hp hd huniq
    have hne2 : (d == "") = false := by simpa using hd
    rw [execute_query_update_ok parse st u t d hu hne2 hp]
    exact ⟨rfl, upsertMem_filter st u t d huniq⟩
  · intro s
    simp [update_mode, hu]
  · intro s huniq
    exact upsertMode_filter st u t s huniq

/-- Witness for `c4_upsert_validation` on concrete inputs: invalid JSON is
rejected by the memory upsert, valid JSON lands as the single row for the
key, and the mode upsert takes any string. -/
theorem c4_upsert_validation_witness :
    execute_query parseFixture st0 1 "update" "work" (.str "oops") =
      (.error (.invalidData invalidJsonUpdateMsg), st0) ∧
    (((execute_query parseFixture st0 1 "update" "work" (.str "\x7b\x7d")).2.memory.filter
      (memKey 1 "work")).map (fun r => r.data)) = ["\x7b\x7d"] ∧
    update_mode st0 1 "work" "not-json" = (.ok (), upsertMode st0 1 "work" "not-json") := by
  have ha := c4_upsert_validation parseFixture st0 1 "work" "oops" (by decide)
  have hb := c4_upsert_validation parseFixture st0 1 "work" "\x7b\x7d" (by decide)
  exact ⟨ha.1 rfl (by decide),
    (hb.2.2.1 rfl (by decide) List.Pairwise.nil).2,
    hb.2.2.2.1 "not-json"⟩

/-! ## C8: upsert idempotence -/

/-- Claim C8: starting from a store satisfying the per-(user, name)
uniqueness invariant, two successive memory upserts of the same valid JSON
succeed and leave exactly one row for the key, holding that data. -/
theorem c8_upsert_idempotent (parse : String → Option Json) (st : DB) (u : Int)
    (t d : String) (hu : userExists st u = true) (hne : d ≠ "")
    (hp : (parse d).isSome = true) (huniq : memUniq st) :
    (execute_query parse st u "update" t (.str d)).1 = .ok none ∧
    (execute_query parse ((execute_query parse st u "update" t (.str d)).2)
      u "update" t (.str d)).1 = .ok none ∧
    ((((execute_query parse ((execute_query parse st u "update" t (.str d)).2)
      u "update" t (.str d)).2).memory.filter (memKey u t)).map
        (fun r => r.data)) = [d] := by
  have hne2 : (d == "") = false := by simpa using hne
  have e1 := execute_query_update_ok parse st u t d hu hne2 hp
  have hu1 : userExists (upsertMem st u t d) u = true := by
    unfold userExists; rw [upsertMem_users]; exact hu
  have e2 := execute_query_update_ok parse (upsertMem st u t d) u t d hu1 hne2 hp
  have huniq1 : memUniq (upsertMem st u t d) := upsertMem_uniq st u t d huniq
  refine ⟨by rw [e1], ?_, ?_⟩
  · simp only [e1, e2]
  · simp only [e1, e2]
    exact upsertMem_filter (upsertMem st u t d) u t d huniq1

/-- Witness for `c8_upsert_idempotent` at the concrete key (1, "work") and
data text of the empty JSON object. -/
theorem c8_upsert_idempotent_witness :
    ((((execute_query parseFixture ((execute_query parseFixture st0 1 "update" "work"
      (.str "\x7b\x7d")).2) 1 "update" "work" (.str "\x7b\x7d")).2).memory.filter
        (memKey 1 "work")).map (fun r => r.data)) = ["\x7b\x7d"] :=
  (c8_upsert_idempotent parseFixture st0 1 "work" "\x7b\x7d" (by decide) (by decide)
    rfl List.Pairwise.nil).2.2

/-! ## C6: unknown user fails before any LLM call -/

/-- Claim C6: for a user id with no users row, request processing fails
with the not-found error, leaves the store unchanged, and sends no prompt
to the completion service (the trace is empty); session creation fails
with the same error. -/
theorem c6_unknown_user (parse : String → Option Json) (engine : Engine)
    (llm : String → String) (st : DB) (uid : Int) (input : String)
    (hu : userExists st uid = false) :
    process_request parse engine llm st uid input =
      ⟨.error (.notFound uid), st, []⟩ ∧
    new_session st uid = .error (.notFound uid) := by
  constructor
  · simp [process_request, validate_user, hu]
  · simp [new_session, hu]

/-- Witness for `c6_unknown_user`: user 9999 does not exist in the
one-user store. -/
theorem c6_unknown_user_witness :
    process_request parseAny engOk (fun _ => "ok") st0 9999 "hello" =
      ⟨.error (.notFound 9999), st0, []⟩ ∧
    new_session st0 9999 = .error (.notFound 9999) :=
  c6_unknown_user parseAny engOk (fun _ => "ok") st0 9999 "hello" (by decide)

/-! ## C9: session default on context assembly -/

/-- Claim C9: for an existing user with no session rows, one context
assembly creates exactly one session, with empty-object chat state, and
hands back its id; a second context assembly from the resulting store
returns the same bundle (same session id) and changes nothing. -/
theorem c9_session_default (engine : Engine) (st : DB) (uid : Int)
    (hu : userExists st uid = true)
    (hs : st.sessions.filter (fun r => r.user_id == uid) = [])
    (cb : ContextBundle) (st1 : DB)
    (h1 : get_context engine st uid = .ok (cb, st1)) :
    ((st1.sessions.filter (fun r => r.user_id == uid)).map
      (fun r => (r.session_id, r.chat_state))) = [(cb.session_id, emptyJsonObj)] ∧
    cb.chat_state = emptyJsonObj ∧
    get_context engine st1 uid = .ok (cb, st1) := by
  unfold get_context at h1
  split at h1
  · cases h1
  case h_2 dbT hlt =>
    split at h1
    case h_1 row hrow =>
      rw [hs] at hrow
      simp [mostRecent] at hrow
    case h_2 hrow =>
      simp only [new_session, hu, Bool.not_true, Bool.false_eq_true, if_false] at h1
      rw [Except.ok.injEq, Prod.mk.injEq] at h1
      obtain ⟨hcb, hst⟩ := h1
      subst hcb; subst hst
      refine ⟨?_, rfl, ?_⟩
      · simp [List.filter_append, hs]
      · unfold get_context
        rw [hlt]
        have hfil : ((st.sessions ++
            [{ session_id := nextIdOf (st.sessions.map (fun r => r.session_id)),
               user_id := uid, chat_state := emptyJsonObj,
               timestamp := st.now : SessionRow }]).filter
            (fun r => r.user_id == uid)) =
            [{ session_id := nextIdOf (st.sessions.map (fun r => r.session_id)),
               user_id := uid, chat_state := emptyJsonObj,
               timestamp := st.now : SessionRow }] := by
          simp [List.filter_append, hs]
        simp only [hfil, mostRecent]

/-- Witness for `c9_session_default`: the one-user store with no sessions;
the created session has id 1 and is returned by the context assembly. -/
theorem c9_session_default_witness :
    (((get_context engOk st0 1).toOption.map
      (fun p => (p.2.sessions.filter (fun r => r.user_id == 1)).map
        (fun r => (r.session_id, r.chat_state)))).getD []) = [(1, emptyJsonObj)] := by
  obtain ⟨ha, hb, hc⟩ := c9_session_default engOk st0 1 (by decide) rfl _ _ rfl
  exact ha

/-! ## C5: malformed plan -/

/-- The function `new_session` never touches the logs table. -/
theorem new_session_logs (st : DB) (uid : Int) (sid : Nat) (st1 : DB)
    (h : new_session st uid = .ok (sid, st1)) : st1.logs = st.logs := by
  unfold new_session at h
  split at h
  · cases h
  · rw [Except.ok.injEq, Prod.mk.injEq] at h
    rw [← h.2]

/-- The function `get_context` never touches the logs table. -/
theorem get_context_logs (engine : Engine) (st : DB) (uid : Int)
    (cb : ContextBundle) (st1 : DB)
    (h : get_context engine st uid = .ok (cb, st1)) : st1.logs = st.logs := by
  unfold get_context at h
  cases hlt : (list_tables engine).1 with
  | error e => rw [hlt] at h; cases h
  | ok dbT =>
    rw [hlt] at h
    cases hrow : mostRecent (st.sessions.filter (fun r => r.user_id == uid)) with
    | some row =>
      rw [hrow] at h
      cases h
      rfl
    | none =>
      rw [hrow] at h
      cases hns : new_session st uid with
      | error e => rw [hns] at h; cases h
      | ok p =>
        obtain ⟨sid, stN⟩ := p
        rw [hns] at h
        cases h
        exact new_session_logs st uid _ _ hns

/-- The function `gatherContext` never touches the logs table. -/
theorem gatherContext_logs (engine : Engine) (st : DB) (uid : Int)
    (cb : ContextBundle) (logs : List (String × String)) (st1 : DB)
    (h : gatherContext engine st uid = .ok (cb, logs, st1)) : st1.logs = st.logs := by
  unfold gatherContext at h
  split at h
  · cases h
  case h_2 cbA stA heq =>
    rw [Except.ok.injEq, Prod.mk.injEq] at h
    obtain ⟨hcb, h2⟩ := h
    rw [Prod.mk.injEq] at h2
    obtain ⟨_, hst⟩ := h2
    subst hcb; subst hst
    exact get_context_logs engine st uid _ _ heq

/-- Claim C5: when the plan response of a run (after code-fence cleanup)
does not parse as a JSON array, the run fails with the malformed-plan
error after exactly one LLM call, and no log row is written: the final
logs of the final store equal the logs of the initial store. -/
theorem c5_malformed_plan (parse : String → Option Json) (engine : Engine)
    (llm : String → String) (st : DB) (uid : Int) (input : String)
    (hu : userExists st uid = true)
    (cb : ContextBundle) (logs : List (String × String)) (st1 : DB)
    (hg : gatherContext engine st uid = .ok (cb, logs, st1))
    (hp : parsePlan parse (llm (planPrompt cb logs input)) = none) :
    process_request parse engine llm st uid input =
      ⟨.error .malformedPlan, st1, [planPrompt cb logs input]⟩ ∧
    st1.logs = st.logs := by
  constructor
  · simp [process_request, validate_user, hu, hg, hp]
  · exact gatherContext_logs engine st uid cb logs st1 hg

/-- Witness for `c5_malformed_plan`: the plan response is the literal
sentence "I think you need to check your calendar" and the parser oracle
(like json.loads on that text) rejects it; the run errors with one prompt
sent and no log row. -/
theorem c5_malformed_plan_witness :
    (process_request parseNone engOk (fun _ => "I think you need to check your calendar")
      st0 1 "What is on my schedule?").outcome = .error .malformedPlan ∧
    (process_request parseNone engOk (fun _ => "I think you need to check your calendar")
      st0 1 "What is on my schedule?").db.logs = st0.logs ∧
    (process_request parseNone engOk (fun _ => "I think you need to check your calendar")
      st0 1 "What is on my schedule?").prompts.length = 1 := by
  have h := c5_malformed_plan parseNone engOk
    (fun _ => "I think you need to check your calendar") st0 1 "What is on my schedule?"
    (by decide) _ _ _ rfl rfl
  rw [h.1]
  exact ⟨rfl, h.2, rfl⟩

/-! ## C3: dispatcher resilience — supporting lemmas -/

/-- The function `upsertMode` does not touch the users table. -/
theorem upsertMode_users (st : DB) (uid : Int) (t s : String) :
    (upsertMode st uid t s).users = st.users := by
  unfold upsertMode; cases st.modes.find? (modeKey uid t) <;> rfl

/-- Computation lemma: the read action returns the data of the first matching
row without touching the store. -/
theorem execute_query_read_eq (parse : String → Option Json) (st : DB)
    (uid : Int) (t : String) (hu : userExists st uid = true) :
    execute_query parse st uid "read" t .null =
      (.ok ((st.memory.find? (memKey uid t)).map (fun r => r.data)), st) := by
  simp [execute_query, hu]

/-- Computation lemma: falsy data fails the update action up front. -/
theorem execute_query_update_falsy (parse : String → Option Json) (st : DB)
    (uid : Int) (t : String) (d : Json) (hu : userExists st uid = true)
    (hd : pyTruthy d = false) :
    execute_query parse st uid "update" t d =
      (.error (.invalidData dataRequiredMsg), st) := by
  have h1 : (("update" : String) == "read") = false := by decide
  have h2 : (("update" : String) == "update") = true := by decide
  simp [execute_query, hu, hd, h1, h2]

/-- Computation lemma: unparseable nonempty data fails the update action
before any write. -/
theorem execute_query_update_badjson (parse : String → Option Json) (st : DB)
    (uid : Int) (t s : String) (hu : userExists st uid = true)
    (hs : s ≠ "") (hp : parse s = none) :
    execute_query parse st uid "update" t (.str s) =
      (.error (.invalidData invalidJsonUpdateMsg), st) := by
  have h1 : (("update" : String) == "read") = false := by decide
  have h2 : (("update" : String) == "update") = true := by decide
  simp [execute_query, hu, hs, hp, h1, h2, pyTruthy]

/-- Every error `create_table` raises is a ValueError. -/
theorem create_table_err_ve (engine : Engine) (t s : String) (e : PyErr)
    (h : (create_table engine t s).1 = .error e) : e.isValueError = true := by
  unfold create_table at h
  repeat' split at h
  all_goals cases h
  all_goals rfl

/-- Every error `insert_data` raises is a ValueError. -/
theorem insert_data_err_ve (engine : Engine) (t : String) (d : Json) (e : PyErr)
    (h : (insert_data engine t d).1 = .error e) : e.isValueError = true := by
  unfold insert_data at h
  dsimp only [] at h
  repeat' split at h
  all_goals cases h
  all_goals rfl

/-- Every error `update_data` raises is a ValueError. -/
theorem update_data_err_ve (engine : Engine) (t : String) (c d : Json) (e : PyErr)
    (h : (update_data engine t c d).1 = .error e) : e.isValueError = true := by
  unfold update_data at h
  dsimp only [] at h
  repeat' split at h
  all_goals cases h
  all_goals rfl

/-- Every error `execute_custom_query` raises is a ValueError. -/
theorem execute_custom_query_err_ve (engine : Engine) (q : String)
    (ps : List Json) (e : PyErr)
    (h : (execute_custom_query engine q ps).1 = .error e) : e.isValueError = true := by
  unfold execute_custom_query at h
  repeat' split at h
  all_goals cases h
  all_goals rfl

/-- Under a healthy catalog, every error `get_schema` raises is the
identifier ValueError (the raw sqlite error path needs a failing catalog
query). -/
theorem get_schema_err_ve (engine : Engine) (t : String) (e : PyErr)
    (hcat : catalogOk engine)
    (h : (get_schema engine t).1 = .error e) : e.isValueError = true := by
  unfold get_schema at h
  split at h
  · split at h
    · cases h; rfl
    · split at h
      · cases h
      case h_2 m heng =>
        have := hcat.2.2 t
        rw [heng] at this
        cases this
  · split at h
    · cases h
    case h_2 m heng =>
      have := hcat.2.1
      rw [heng] at this
      cases this

/-- The memory-read arm returns normally for a validated user and leaves
the users table alone. -/
theorem hReadMem_ok (parse : String → Option Json) (uid : Int) (st : DB)
    (ctx : Ctx) (tn : Json) (hu : userExists st uid = true) :
    ∃ p : Ctx × DB, hReadMem parse uid st ctx tn = .ok p ∧ p.2.users = st.users := by
  unfold hReadMem
  cases tn with
  | str t =>
    dsimp only []
    rw [execute_query_read_eq parse st uid t hu]
    cases hR : (st.memory.find? (memKey uid t)).map (fun r => r.data) with
    | none => exact ⟨(ctx, st), by simp [hR], rfl⟩
    | some v =>
      by_cases hv : (v != "") = true
      · exact ⟨(ctxSet ctx ("memory_" ++ t) (.s v), st), by simp [hR, hv], rfl⟩
      · exact ⟨(ctx, st), by simp [hR, hv], rfl⟩
  | null => exact ⟨(ctx, st), rfl, rfl⟩
  | bool b => exact ⟨(ctx, st), rfl, rfl⟩
  | num n => exact ⟨(ctx, st), rfl, rfl⟩
  | arr l => exact ⟨(ctx, st), rfl, rfl⟩
  | obj o => exact ⟨(ctx, st), rfl, rfl⟩

/-- The mode-read arm returns normally and leaves the users table alone. -/
theorem hReadMode_ok (uid : Int) (st : DB) (ctx : Ctx) (tn : Json) :
    ∃ p : Ctx × DB, hReadMode uid st ctx tn = .ok p ∧ p.2.users = st.users := by
  unfold hReadMode
  cases tn with
  | str t =>
    cases hR : st.modes.find? (modeKey uid t) with
    | some r => exact ⟨(ctxSet ctx ("mode_" ++ t) (.s r.mode_data), st), by simp [hR], rfl⟩
    | none => exact ⟨(ctx, st), by simp [hR], rfl⟩
  | null => exact ⟨(ctx, st), rfl, rfl⟩
  | bool b => exact ⟨(ctx, st), rfl, rfl⟩
  | num n => exact ⟨(ctx, st), rfl, rfl⟩
  | arr l => exact ⟨(ctx, st), rfl, rfl⟩
  | obj o => exact ⟨(ctx, st), rfl, rfl⟩

/-- The memory-update arm catches every storage ValueError and returns
normally on well-typed fields, preserving the users table. -/
theorem hUpdateMem_ok (parse : String → Option Json) (uid : Int) (st : DB)
    (ctx : Ctx) (tn d : Json) (hu : userExists st uid = true)
    (htn : tn.isStr = true) (hd : (!(pyTruthy d) || d.isStr) = true) :
    ∃ p : Ctx × DB, hUpdateMem parse uid st ctx tn d = .ok p ∧ p.2.users = st.users := by
  unfold hUpdateMem
  rcases tn with _ | b | n | t | l | o <;> try simp [Json.isStr] at htn
  dsimp only []
  by_cases hdt : pyTruthy d = true
  · have hds : d.isStr = true := by simpa [hdt] using hd
    rcases d with _ | b2 | n2 | s | l2 | o2 <;> try simp [Json.isStr] at hds
    have hsne : s ≠ "" := by
      intro hse
      rw [hse] at hdt
      simp [pyTruthy] at hdt
    cases hp : parse s with
    | some j =>
      have hiss : (parse s).isSome = true := by rw [hp]; rfl
      have hne2 : (s == "") = false := by simpa using hsne
      rw [execute_query_update_ok parse st uid t s hu hne2 hiss]
      exact ⟨(ctxSet ctx ("update_memory_" ++ t)
        (.s ("Updated " ++ t ++ " successfully.")), upsertMem st uid t s),
        rfl, upsertMem_users st uid t s⟩
    | none =>
      rw [execute_query_update_badjson parse st uid t s hu hsne hp]
      exact ⟨(ctxSet ctx ("update_memory_" ++ t) (.s invalidJsonUpdateMsg), st), rfl, rfl⟩
  · have hdf : pyTruthy d = false := by simpa using hdt
    rw [execute_query_update_falsy parse st uid t d hu hdf]
    exact ⟨(ctxSet ctx ("update_memory_" ++ t) (.s dataRequiredMsg), st), rfl, rfl⟩

/-- The mode-update arm returns normally on well-typed fields, preserving
the users table. -/
theorem hUpdateMode_ok (parse : String → Option Json) (uid : Int) (st : DB)
    (ctx : Ctx) (tn d : Json) (hu : userExists st uid = true)
    (htn : tn.isStr = true) (hd : d.isStr = true) :
    ∃ p : Ctx × DB, hUpdateMode parse uid st ctx tn d = .ok p ∧ p.2.users = st.users := by
  unfold hUpdateMode
  rcases d with _ | b2 | n2 | s | l2 | o2 <;> try simp [Json.isStr] at hd
  cases hp : parse s with
  | none =>
    exact ⟨(ctxSet ctx ("update_mode_" ++ pyStr tn)
      (.s "Invalid JSON data for mode update"), st), by simp [hp], rfl⟩
  | some j =>
    rcases tn with _ | b | n | t | l | o <;> try simp [Json.isStr] at htn
    have hup : update_mode st uid t s = (.ok (), upsertMode st uid t s) := by
      simp [update_mode, hu]
    refine ⟨(ctxSet ctx ("update_mode_" ++ t)
      (.s ("Updated " ++ t ++ " mode successfully.")), upsertMode st uid t s),
      ?_, upsertMode_users st uid t s⟩
    simp [hp, hup]

/-- The create_table arm catches every storage ValueError and returns
normally, never touching the modeled store. -/
theorem hCreateTable_ok (engine : Engine) (st : DB) (ctx : Ctx) (tn schemaJ : Json)
    (htn : tn.isStr = true) (hsc : schemaJ.isStr = true) :
    ∃ p : Ctx × DB, hCreateTable engine st ctx tn schemaJ = .ok p ∧ p.2.users = st.users := by
  unfold hCreateTable
  rcases tn with _ | b | n | t | l | o <;> try simp [Json.isStr] at htn
  rcases schemaJ with _ | b2 | n2 | s | l2 | o2 <;> try simp [Json.isStr] at hsc
  cases hr : (create_table engine t s).1 with
  | ok msg => exact ⟨(ctxSet ctx ("create_table_" ++ t) (.s msg), st), by simp [hr], rfl⟩
  | error e =>
    have hve := create_table_err_ve engine t s e hr
    exact ⟨(ctxSet ctx ("create_table_" ++ t) (.s e.msg), st), by simp [hr, hve], rfl⟩

/-- The list_tables arm catches every exception and returns normally. -/
theorem hListTables_ok (engine : Engine) (st : DB) (ctx : Ctx) :
    ∃ p : Ctx × DB, hListTables engine st ctx = .ok p ∧ p.2.users = st.users := by
  unfold hListTables
  cases hr : (list_tables engine).1 with
  | ok ts => exact ⟨(ctxSet ctx "list_tables" (.tables ts), st), by simp [hr], rfl⟩
  | error e => exact ⟨(ctxSet ctx "list_tables" (.s e.msg), st), by simp [hr], rfl⟩

/-- The get_schema arm returns normally when the catalog is healthy and
the name field is well typed. -/
theorem hGetSchema_ok (engine : Engine) (st : DB) (ctx : Ctx) (tn : Json)
    (hcat : catalogOk engine)
    (h : (!(pyTruthy tn) || tn.isStr) = true) :
    ∃ p : Ctx × DB, hGetSchema engine st ctx tn = .ok p ∧ p.2.users = st.users := by
  unfold hGetSchema
  by_cases ht : pyTruthy tn = true
  · have htn : tn.isStr = true := by simpa [ht] using h
    rcases tn with _ | b | n | t | l | o <;> try simp [Json.isStr] at htn
    rw [if_pos (by simpa using ht)]
    cases hr : (get_schema engine t).1 with
    | ok m => exact ⟨(ctxSet ctx ("schema_" ++ t) (.schemas m), st), by simp [hr], rfl⟩
    | error e =>
      have hve := get_schema_err_ve engine t e hcat hr
      exact ⟨(ctxSet ctx "schema_error" (.s e.msg), st), by simp [hr, hve], rfl⟩
  · rw [if_neg ht]
    cases hr : (get_schema engine "").1 with
    | ok m => exact ⟨(ctxSet ctx "all_schemas" (.schemas m), st), by simp [hr], rfl⟩
    | error e =>
      have hve := get_schema_err_ve engine "" e hcat hr
      exact ⟨(ctxSet ctx "schema_error" (.s e.msg), st), by simp [hr, hve], rfl⟩

/-- The execute_query arm catches every storage ValueError and returns
normally on a string query. -/
theorem hExecQuery_ok (engine : Engine) (st : DB) (ctx : Ctx) (q : Json)
    (hq : q.isStr = true) :
    ∃ p : Ctx × DB, hExecQuery engine st ctx q = .ok p ∧ p.2.users = st.users := by
  unfold hExecQuery
  rcases q with _ | b | n | qs | l | o <;> try simp [Json.isStr] at hq
  cases hr : (execute_custom_query engine qs []).1 with
  | ok rows => exact ⟨(ctxSet ctx "query_results" (.rows rows), st), by simp [hr], rfl⟩
  | error e =>
    have hve := execute_custom_query_err_ve engine qs [] e hr
    exact ⟨(ctxSet ctx "query_error" (.s e.msg), st), by simp [hr, hve], rfl⟩

/-- The insert_data arm catches every storage ValueError and returns
normally on a string table name. -/
theorem hInsert_ok (engine : Engine) (st : DB) (ctx : Ctx) (tn d : Json)
    (htn : tn.isStr = true) :
    ∃ p : Ctx × DB, hInsert engine st ctx tn d = .ok p ∧ p.2.users = st.users := by
  unfold hInsert
  rcases tn with _ | b | n | t | l | o <;> try simp [Json.isStr] at htn
  cases hr : (insert_data engine t d).1 with
  | ok msg => exact ⟨(ctxSet ctx ("insert_" ++ t) (.s msg), st), by simp [hr], rfl⟩
  | error e =>
    have hve := insert_data_err_ve engine t d e hr
    exact ⟨(ctxSet ctx ("insert_error_" ++ t) (.s e.msg), st), by simp [hr, hve], rfl⟩

/-- The update_data arm catches every storage ValueError and returns
normally on a string table name. -/
theorem hUpdateData_ok (engine : Engine) (st : DB) (ctx : Ctx) (tn cond d : Json)
    (htn : tn.isStr = true) :
    ∃ p : Ctx × DB, hUpdateData engine st ctx tn cond d = .ok p ∧ p.2.users = st.users := by
  unfold hUpdateData
  rcases tn with _ | b | n | t | l | o <;> try simp [Json.isStr] at htn
  cases hr : (update_data engine t cond d).1 with
  | ok msg => exact ⟨(ctxSet ctx ("update_" ++ t) (.s msg), st), by simp [hr], rfl⟩
  | error e =>
    have hve := update_data_err_ve engine t cond d e hr
    exact ⟨(ctxSet ctx ("update_error_" ++ t) (.s e.msg), st), by simp [hr, hve], rfl⟩

/-- The agent-call arm always returns normally. -/
theorem hCall_ok (st : DB) (ctx : Ctx) (an : Json) :
    ∃ p : Ctx × DB, hCall st ctx an = .ok p ∧ p.2.users = st.users := by
  unfold hCall
  by_cases ha : an.eqStr "get_time" = true
  · exact ⟨(ctxSet ctx "agent_get_time" (.s (get_time st.now)), st), by simp [ha], rfl⟩
  · exact ⟨(ctxSet ctx ("agent_" ++ pyStr an) (.s ("Unknown agent: " ++ pyStr an)), st),
      by simp [ha], rfl⟩

/-- Every arm of the dispatcher returns normally on a well-typed object
item (given a validated user and a healthy catalog), and no arm touches
the users table. -/
theorem dispatch_obj_ok (parse : String → Option Json) (engine : Engine)
    (uid : Int) (st : DB) (ctx : Ctx) (fs : List (String × Json))
    (hu : userExists st uid = true) (hcat : catalogOk engine)
    (hwt : wellTypedFields fs = true) :
    ∃ p : Ctx × DB, dispatch_obj parse engine uid st ctx fs = .ok p ∧
      p.2.users = st.users := by
  unfold dispatch_obj
  unfold wellTypedFields at hwt
  split
  · split
    · exact hReadMem_ok parse uid st ctx _ hu
    · exact hReadMode_ok uid st ctx _
  · rename_i hc1
    rw [if_neg hc1] at hwt
    split
    · rename_i hc2
      rw [if_pos hc2] at hwt
      split
      · rename_i hc3
        rw [if_pos hc3] at hwt
        rw [Bool.and_eq_true] at hwt
        exact hUpdateMem_ok parse uid st ctx _ _ hu hwt.1 hwt.2
      · rename_i hc3
        rw [if_neg hc3] at hwt
        rw [Bool.and_eq_true] at hwt
        exact hUpdateMode_ok parse uid st ctx _ _ hu hwt.1 hwt.2
    · rename_i hc2
      rw [if_neg hc2] at hwt
      split
      · rename_i hc3
        rw [if_pos hc3] at hwt
        rw [Bool.and_eq_true] at hwt
        exact hCreateTable_ok engine st ctx _ _ hwt.1 hwt.2
      · rename_i hc3
        rw [if_neg hc3] at hwt
        split
        · exact hListTables_ok engine st ctx
        · rename_i hc4
          rw [if_neg hc4] at hwt
          split
          · rename_i hc5
            rw [if_pos hc5] at hwt
            exact hGetSchema_ok engine st ctx _ hcat hwt
          · rename_i hc5
            rw [if_neg hc5] at hwt
            split
            · rename_i hc6
              rw [if_pos hc6] at hwt
              exact hExecQuery_ok engine st ctx _ hwt
            · rename_i hc6
              rw [if_neg hc6] at hwt
              split
              · rename_i hc7
                rw [if_pos hc7] at hwt
                exact hInsert_ok engine st ctx _ _ hwt
              · rename_i hc7
                rw [if_neg hc7] at hwt
                split
                · rename_i hc8
                  rw [if_pos hc8] at hwt
                  exact hUpdateData_ok engine st ctx _ _ _ hwt
                · split
                  · exact hCall_ok st ctx _
                  · exact ⟨(ctx, st), rfl, rfl⟩

/-- The dispatch loop never raises on a plan of well-typed object items:
every item is handled or skipped, never thrown. -/
theorem dispatch_all_ok (parse : String → Option Json) (engine : Engine)
    (uid : Int) (hcat : catalogOk engine) :
    ∀ (items : List Json) (st : DB) (ctx : Ctx), userExists st uid = true →
    (∀ it ∈ items, wellTypedItem it = true) →
    exceptOk (dispatch_all parse engine uid st ctx items).1 = true := by
  intro items
  induction items with
  | nil => intro st ctx _ _; rfl
  | cons it rest ih =>
    intro st ctx hu hwt
    have hit : wellTypedItem it = true := hwt it (List.mem_cons_self it rest)
    cases it with
    | obj fs =>
      obtain ⟨p, hp, hus⟩ := dispatch_obj_ok parse engine uid st ctx fs hu hcat hit
      obtain ⟨c2, s2⟩ := p
      unfold dispatch_all
      unfold dispatch_one
      dsimp only []
      rw [hp]
      have hu2 : userExists s2 uid = true := by
        unfold userExists at hu ⊢
        rw [show s2.users = st.users from hus]
        exact hu
      exact ih s2 c2 hu2 (fun x hx => hwt x (List.mem_cons_of_mem _ hx))
    | null => simp [wellTypedItem] at hit
    | bool b => simp [wellTypedItem] at hit
    | num n => simp [wellTypedItem] at hit
    | str s => simp [wellTypedItem] at hit
    | arr l => simp [wellTypedItem] at hit

/-- An object item selecting no arm falls through the if/elif chain with
no context entry and no store change. -/
theorem dispatch_obj_unrecognized (parse : String → Option Json) (engine : Engine)
    (uid : Int) (st : DB) (ctx : Ctx) (fs : List (String × Json))
    (h : recognizedFields fs = false) :
    dispatch_one parse engine uid st ctx (.obj fs) = .ok (ctx, st) := by
  unfold dispatch_one dispatch_obj
  unfold recognizedFields at h
  simp only [Bool.or_eq_false_iff] at h
  obtain ⟨⟨⟨⟨⟨⟨⟨⟨h1, h2⟩, h3⟩, h4⟩, h5⟩, h6⟩, h7⟩, h8⟩, h9⟩ := h
  simp [h1, h2, h3, h4, h5, h6, h7, h8, h9]

/-- Claim C3 counterexample: an item with the unknown action "frobnicate"
is skipped with no diagnostic — the context map stays empty — and an item
that is not a JSON object makes the dispatcher raise an AttributeError
(`.get` on a string) instead of skipping it.  Both contradict the claim
that every unknown or malformed item leaves a diagnostic entry and that
the dispatcher never raises. -/
theorem c3_counterexample :
    dispatch_all parseAny engOk 1 st0 [] [.obj [("action", .str "frobnicate")]] =
      (.ok [], st0) ∧
    dispatch_all parseAny engOk 1 st0 [] [.str "hello"] =
      (.error (.attributeError "object has no attribute get"), st0) :=
  ⟨rfl, rfl⟩

/-- Claim C3 (amended): over plans whose items are JSON objects with
well-typed fields, for a validated user and a healthy catalog, the
dispatcher never raises — the storage ValueError of each item is caught and
stored as text, so an earlier item cannot prevent later ones — and an
object item selecting no arm is skipped silently, with no diagnostic
entry and no store change.  Items that are not objects (and object items
whose fields feed non-strings where the code calls string methods) raise
and abort the remaining items. -/
theorem c3_dispatch_policy (parse : String → Option Json) (engine : Engine)
    (uid : Int) (st : DB) (ctx : Ctx) (items : List Json)
    (hu : userExists st uid = true) (hcat : catalogOk engine)
    (hwt : ∀ it ∈ items, wellTypedItem it = true) :
    exceptOk (dispatch_all parse engine uid st ctx items).1 = true ∧
    ∀ fs, recognizedFields fs = false →
      dispatch_one parse engine uid st ctx (.obj fs) = .ok (ctx, st) :=
  ⟨dispatch_all_ok parse engine uid hcat items st ctx hu hwt,
   fun fs h => dispatch_obj_unrecognized parse engine uid st ctx fs h⟩

/-- Witness for `c3_dispatch_policy`: a two-item plan mixing a well-formed
list_tables action with an unknown action dispatches without raising, and
the unknown item alone produces no context entry. -/
theorem c3_dispatch_policy_witness :
    exceptOk (dispatch_all parseAny engOk 1 st0 []
      [.obj [("action", .str "list_tables")],
       .obj [("action", .str "frobnicate")]]).1 = true ∧
    dispatch_one parseAny engOk 1 st0 [] (.obj [("action", .str "frobnicate")]) =
      .ok ([], st0) := by
  have h := c3_dispatch_policy parseAny engOk 1 st0 []
    [.obj [("action", .str "list_tables")], .obj [("action", .str "frobnicate")]]
    (by decide) ⟨rfl, rfl, fun t => rfl⟩ ?_
  · exact ⟨h.1, h.2 [("action", .str "frobnicate")] (by decide)⟩
  · intro it hit
    rcases List.mem_cons.mp hit with rfl | hit2
    · decide
    · rcases List.mem_cons.mp hit2 with rfl | hit3
      · decide
      · exact absurd hit3 (List.not_mem_nil it)
